import Mathlib

/-!
Verification development for the orbital-visualization core of the
BewareOfTheRocks web presentation.

The definitions below are a shallow embedding of the JavaScript sources:

* `src/frontend/src/render/Meteor.js` — procedural "geoid" meteor geometry
  (`createGeoidGeometry`, `simpleNoise`);
* `src/frontend/src/controller/CameraController.js` — the orbit camera with
  its lock/transition state machine;
* `src/frontend/src/ThreeDemo.js` (and the identical copy in the unnamed
  intro-slide source) — progressive batched meteor creation
  (`createMeteorsFromOrbitsProgressive`);
* the Keplerian propagator (`Orbit.js`), whose source file is not part of
  the provided sources and is therefore modelled from the specification.

JavaScript numbers are modelled as real numbers (`ℝ`); the IEEE special
values NaN and ±Infinity, which the camera controller explicitly guards
against, are modelled separately by the `JsFloat` type together with a
`JsFloat`-valued copy of the `update` routine, so that the defensive checks
of `CameraController.update` can be analysed bit-for-bit.
-/

noncomputable section

open Classical

/-- Three.js `Vector3`: a triple of JS numbers, modelled over `ℝ`. -/
structure Vec3 where
  x : ℝ
  y : ℝ
  z : ℝ

/-- Componentwise vector addition (`Vector3.add`). -/
def vadd (a b : Vec3) : Vec3 := ⟨a.x + b.x, a.y + b.y, a.z + b.z⟩

/-- Componentwise vector subtraction (`Vector3.sub`). -/
def vsub (a b : Vec3) : Vec3 := ⟨a.x - b.x, a.y - b.y, a.z - b.z⟩

/-- Scalar multiplication (`Vector3.multiplyScalar`). -/
def vsmul (c : ℝ) (v : Vec3) : Vec3 := ⟨c * v.x, c * v.y, c * v.z⟩

/-- `Vector3.length`: the Euclidean norm `sqrt(x*x + y*y + z*z)`. -/
def vecLength (v : Vec3) : ℝ := Real.sqrt (v.x ^ 2 + v.y ^ 2 + v.z ^ 2)

/-- `Vector3.normalize`: `divideScalar(length)`.  (Only ever applied to
nonzero vectors in the sources; `1/0 = 0` in the real model.) -/
def vnormalize (v : Vec3) : Vec3 := vsmul (1 / vecLength v) v

/-- `Vector3.lerpVectors(a, b, t) = a + (b - a) * t`, componentwise. -/
def vlerp (a b : Vec3) (t : ℝ) : Vec3 :=
  ⟨a.x + (b.x - a.x) * t, a.y + (b.y - a.y) * t, a.z + (b.z - a.z) * t⟩

/-- JavaScript `Math.atan2(y, x)` (signed zeros are not modelled; the
sources only evaluate it away from the discontinuity). -/
def jatan2 (y x : ℝ) : ℝ :=
  if 0 < x then Real.arctan (y / x)
  else if x < 0 then
    (if 0 ≤ y then Real.arctan (y / x) + Real.pi else Real.arctan (y / x) - Real.pi)
  else
    (if 0 < y then Real.pi / 2 else if y < 0 then -(Real.pi / 2) else 0)

/-- Three.js spherical coordinates: `radius`, polar angle `phi`, azimuth
`theta`. -/
structure Sph where
  radius : ℝ
  phi : ℝ
  theta : ℝ

/-- Three.js `Spherical.setFromVector3`: `radius = |v|`; for `radius = 0`
both angles are `0`, otherwise `theta = atan2(x, z)` and
`phi = acos(clamp(y / radius, -1, 1))`. -/
def sphericalFromVector (v : Vec3) : Sph :=
  let r := vecLength v
  if r = 0 then ⟨0, 0, 0⟩
  else ⟨r, Real.arccos (max (-1) (min 1 (v.y / r))), jatan2 v.x v.z⟩

/-- Three.js `Vector3.setFromSpherical`:
`(r sin phi sin theta, r cos phi, r sin phi cos theta)`. -/
def sphericalToCart (sp : Sph) : Vec3 :=
  ⟨sp.radius * Real.sin sp.phi * Real.sin sp.theta,
   sp.radius * Real.cos sp.phi,
   sp.radius * Real.sin sp.phi * Real.cos sp.theta⟩

/-!
## Procedural meteor geometry (`Meteor.js`)
-/

/-- `Meteor.simpleNoise(x, y, z)` from `Meteor.js` lines 121–128: the
average of three phase-mixed sine taps. -/
def simpleNoise (x y z : ℝ) : ℝ :=
  (Real.sin (x * 2.1 + y * 1.3 + z * 0.7) * 0.5 +
   Real.sin (x * 1.7 + y * 2.9 + z * 1.1) * 0.3 +
   Real.sin (x * 3.3 + y * 0.9 + z * 2.3) * 0.2) / 3

/-- The three-octave displacement scalar computed per vertex by
`createGeoidGeometry` (`Meteor.js` lines 96–104) for a unit direction `d`
and the per-mesh `seed`. -/
def deformationAt (seed : ℝ) (d : Vec3) : ℝ :=
  let noise1 := simpleNoise (d.x * 3 + seed) (d.y * 3 + seed) (d.z * 3 + seed)
  let noise2 := simpleNoise (d.x * 8 + seed) (d.y * 8 + seed) (d.z * 8 + seed)
  let noise3 := simpleNoise (d.x * 15 + seed) (d.y * 15 + seed) (d.z * 15 + seed)
  noise1 * 0.3 + noise2 * 0.15 + noise3 * 0.08

/-- `newRadius = radius * (0.85 + deformation * 0.3)` for the vertex whose
unit direction is `d` (`Meteor.js` line 107). -/
def newRadiusAt (radius seed : ℝ) (d : Vec3) : ℝ :=
  radius * (0.85 + deformationAt seed d * 0.3)

/-- The displaced position of one sphere vertex: the source normalizes the
vertex to get `direction`, evaluates the noise there, and rescales the
vertex by `newRadius / vertex.length()` (`Meteor.js` lines 90–111). -/
def displacedVertex (radius seed : ℝ) (vtx : Vec3) : Vec3 :=
  vsmul (newRadiusAt radius seed (vnormalize vtx) / vecLength vtx) vtx

/-- Vertex `(ix, iy)` of `THREE.SphereGeometry(radius, w, h)` with the
default angular ranges (`phiStart = 0`, `phiLength = 2π`, `thetaStart = 0`,
`thetaLength = π`):
`(-r cos(2πu) sin(πv), r cos(πv), r sin(2πu) sin(πv))` with `u = ix/w`,
`v = iy/h`. -/
def sphereVertex (radius : ℝ) (w h : ℕ) (ix iy : ℕ) : Vec3 :=
  let u : ℝ := (ix : ℝ) / (w : ℝ)
  let v : ℝ := (iy : ℝ) / (h : ℝ)
  ⟨-radius * Real.cos (u * (2 * Real.pi)) * Real.sin (v * Real.pi),
   radius * Real.cos (v * Real.pi),
   radius * Real.sin (u * (2 * Real.pi)) * Real.sin (v * Real.pi)⟩

/-- The vertex positions produced by `createGeoidGeometry(radius, segments)`
(`Meteor.js` lines 78–118).  The function takes NO seed argument: the seed
is drawn internally as `Math.random() * 1000`; the external draw
`rand ∈ [0, 1)` is therefore an explicit input of the embedding.  The
source builds `SphereGeometry(radius, segments, segments)` and displaces
every vertex of its `(segments+1) × (segments+1)` grid. -/
def createGeoidVertices (radius : ℝ) (segments : ℕ) (rand : ℝ) : List Vec3 :=
  let seed := rand * 1000
  (List.range (segments + 1)).flatMap fun iy =>
    (List.range (segments + 1)).map fun ix =>
      displacedVertex radius seed (sphereVertex radius segments segments ix iy)

/-!
## Progressive batched meteor creation (`ThreeDemo.js` lines 42–83)
-/

/-- `MAX_METEORS` from `ThreeDemo.js` line 39. -/
def MAX_METEORS : ℕ := 200

/-- The `createBatch` / `setTimeout` loop of
`createMeteorsFromOrbitsProgressive`: each round processes
`min(index + batchSize, total) - index` records, then reschedules itself
while `index < total`.  `fuel` bounds the number of rounds (the JS loop
advances `index` by at least one per round whenever `batchSize > 0`, so
`fuel = total` rounds always suffice). -/
def createBatchLoop (batchSize total : ℕ) : ℕ → ℕ → List ℕ
  | 0, _ => []
  | fuel + 1, index =>
    if index < total then
      (min (index + batchSize) total - index) ::
        createBatchLoop batchSize total fuel (min (index + batchSize) total)
    else []

/-- The batch sizes produced by `createMeteorsFromOrbitsProgressive` for
`numOrbits` parsed records: `total = min(orbits.length, MAX_METEORS)`,
starting at `index = 0` (an empty orbit list returns `[]` immediately,
which coincides with the loop's behaviour at `total = 0`). -/
def progressiveBatches (numOrbits batchSize : ℕ) : List ℕ :=
  createBatchLoop batchSize (min numOrbits MAX_METEORS) (min numOrbits MAX_METEORS) 0

/-!
## Keplerian propagation

Modelled from the spec: the orbit-solving routine (`Orbit.js`, imported by
`Meteor.js` and used through `startOrbit`/`updateOrbit`) is not among the
provided source files; §4.1 of the spec fixes the intended algorithm, which
is embedded literally below.
-/

/-- Modelled from the spec: immutable orbital elements (`semiMajorAxis`,
`eccentricity`, `period`, `inclination`, `omega`, `raan`), §3 of the
spec. -/
structure OrbitalElements where
  semiMajorAxis : ℝ
  eccentricity : ℝ
  period : ℝ
  inclination : ℝ
  omega : ℝ
  raan : ℝ

/-- Modelled from the spec: `t mod period` used in step 1 of §4.1 (the
mathematical modulus, defined for all real `t`). -/
def rmod (t T : ℝ) : ℝ := t - T * (⌊t / T⌋ : ℤ)

/-- Modelled from the spec: mean anomaly `M = 2π (t mod period) / period`
(§4.1 step 1). -/
def meanAnomaly (el : OrbitalElements) (t : ℝ) : ℝ :=
  2 * Real.pi * rmod t el.period / el.period

/-- Modelled from the spec: one Newton–Raphson step for Kepler's equation
`M = E - e sin E`, iterated until `|ΔE| < 1e-6` or the fuel (iteration cap
30) is exhausted, returning the best estimate (§4.1 step 2). -/
def keplerIter (e M : ℝ) : ℕ → ℝ → ℝ
  | 0, E => E
  | fuel + 1, E =>
    let delta := (E - e * Real.sin E - M) / (1 - e * Real.cos E)
    let E2 := E - delta
    if |delta| < 1e-6 then E2 else keplerIter e M fuel E2

/-- Modelled from the spec: eccentric anomaly via Newton–Raphson seeded at
`E₀ = M` with iteration cap 30 (§4.1 step 2). -/
def eccentricAnomaly (e M : ℝ) : ℝ := keplerIter e M 30 M

/-- Modelled from the spec: `propagate(elements, t)` (§4.1).  True anomaly
`ν = 2 atan2(√(1+e) sin(E/2), √(1−e) cos(E/2))`, plane radius
`r = a (1 − e cos E)`, in-plane position `(r cos ν, 0, r sin ν)`, then the
fixed rotation sequence `omega` (about the normal), `inclination` (tilt),
`raan` (about the reference normal). -/
def propagate (el : OrbitalElements) (t : ℝ) : Vec3 :=
  let M := meanAnomaly el t
  let E := eccentricAnomaly el.eccentricity M
  let nu := 2 * jatan2 (Real.sqrt (1 + el.eccentricity) * Real.sin (E / 2))
                       (Real.sqrt (1 - el.eccentricity) * Real.cos (E / 2))
  let r := el.semiMajorAxis * (1 - el.eccentricity * Real.cos E)
  let x0 := r * Real.cos nu
  let z0 := r * Real.sin nu
  let x1 := x0 * Real.cos el.omega - z0 * Real.sin el.omega
  let z1 := x0 * Real.sin el.omega + z0 * Real.cos el.omega
  let y2 := -z1 * Real.sin el.inclination
  let z2 := z1 * Real.cos el.inclination
  let x3 := x1 * Real.cos el.raan + z2 * Real.sin el.raan
  let z3 := -x1 * Real.sin el.raan + z2 * Real.cos el.raan
  ⟨x3, y2, z3⟩

/-!
## Camera controller (`CameraController.js`)

A `Body` models any object the controller can lock onto (sun, earth,
meteor): the controller only reads `getPosition()` and `radius` from it.
`id` models JavaScript object identity (the source compares bodies with
`===`); distinct objects carry distinct ids.
-/

/-- A lockable body in the scene: `getPosition()` and `radius`, plus an
`id` standing in for JS reference identity. -/
structure Body where
  id : ℕ
  pos : Vec3
  radius : ℝ

/-- The `lockMode` strings of `CameraController.js`: `'none'`, `'sun'`,
`'earth'`, `'meteor'` (`nolock` models `'none'`). -/
inductive LockMode where
  | nolock
  | sun
  | earth
  | meteor
deriving DecidableEq

/-- The state captured by the `transitionToTarget` closure (`startTarget`,
`startTheta`, `startPhi`, `startRadius`, the target object, the goal
distance, the commit kind of `onComplete`, and the duration).  `ctxId`
distinguishes live closures (each call creates a fresh one). -/
structure TransCtx where
  ctxId : ℕ
  body : Body
  kind : LockMode
  goal : ℝ
  startTarget : Vec3
  startTheta : ℝ
  startPhi : ℝ
  startRadius : ℝ
  duration : ℝ

/-- The mutable fields of `CameraController` (constructor, lines 4–49),
plus `cameraPos` for `this.camera.position` and `transitions` for the set
of live `transitionToTarget` animation closures. -/
structure CamState where
  target : Vec3
  minDistance : ℝ
  maxDistance : ℝ
  currentDistance : ℝ
  rotationSpeed : ℝ
  zoomSpeed : ℝ
  isMouseDown : Bool
  lastMouseX : ℝ
  lastMouseY : ℝ
  spherical : Sph
  autoRotate : Bool
  autoRotateSpeed : ℝ
  lockedTarget : Option Body
  lockMode : LockMode
  isTransitioning : Bool
  meteorsList : List Body
  currentMeteorIndex : ℤ
  currentMeteor : Option Body
  sunInstance : Option Body
  earthInstance : Option Body
  cameraPos : Vec3
  transitions : List TransCtx
  nextCtxId : ℕ

/-- `updateMinDistanceForTarget` (lines 256–285).  Every body in this
repository carries a `radius` field, so the source's
`lockedTarget.radius !== undefined` branch is always the one taken (the
`lockMode`-based fallbacks are dead code for these scenes). -/
def updateMinDistanceForTarget (s : CamState) : CamState :=
  match s.lockedTarget with
  | none => s
  | some B =>
    let newMinDistance := B.radius * 2.5
    if 0.1 < |s.minDistance - newMinDistance| then
      if s.currentDistance < newMinDistance then
        { s with minDistance := newMinDistance,
                 currentDistance := newMinDistance,
                 spherical := { s.spherical with radius := newMinDistance } }
      else { s with minDistance := newMinDistance }
    else s

/-- `update` (lines 211–253).  The leading `isNaN`/`isFinite` guards of the
source always fall through in this real-valued model (every `ℝ` value is
finite); they are modelled bit-for-bit on `JsFloat` by `jsUpdate` below.
`camera.lookAt` only changes the orientation and is not modelled. -/
def updateState (s : CamState) : CamState :=
  let phi1 := max 0.01 (min (Real.pi - 0.01) s.spherical.phi)
  let rad1 := max s.minDistance (min s.maxDistance s.spherical.radius)
  let sA := { s with spherical := ⟨rad1, phi1, s.spherical.theta⟩ }
  let sB :=
    match sA.lockedTarget, sA.isTransitioning with
    | some B, false => updateMinDistanceForTarget { sA with target := B.pos }
    | _, _ => sA
  let sC :=
    if sB.autoRotate then
      { sB with spherical := { sB.spherical with theta := sB.spherical.theta + sB.autoRotateSpeed } }
    else sB
  { sC with cameraPos := vadd (sphericalToCart sC.spherical) sC.target }

/-- `onMouseDown` (lines 72–76). -/
def onMouseDown (cx cy : ℝ) (s : CamState) : CamState :=
  { s with isMouseDown := true, lastMouseX := cx, lastMouseY := cy }

/-- `onMouseUp` (lines 97–99). -/
def onMouseUp (s : CamState) : CamState := { s with isMouseDown := false }

/-- `onMouseMove` (lines 78–95): rotate `theta`/`phi` by the mouse delta,
clamp `phi` to `[0.1, π - 0.1]`, then `update()`.  There is no
`isTransitioning` check in the source. -/
def onMouseMove (cx cy : ℝ) (s : CamState) : CamState :=
  if s.isMouseDown then
    let deltaX := cx - s.lastMouseX
    let deltaY := cy - s.lastMouseY
    let theta1 := s.spherical.theta - deltaX * s.rotationSpeed
    let phi1 := s.spherical.phi + deltaY * s.rotationSpeed
    let phi2 := max 0.1 (min (Real.pi - 0.1) phi1)
    updateState { s with spherical := ⟨s.spherical.radius, phi2, theta1⟩,
                         lastMouseX := cx, lastMouseY := cy }
  else s

/-- `onWheel` (lines 101–130): adjust `currentDistance`, compute the safe
minimum (free camera: sun-proximity floor `15 * 2.5` when closer than
`15 * 3` to the origin, and a flat floor of `20`), clamp, copy into
`spherical.radius`, then `update()`.  No `isTransitioning` check. -/
def onWheel (deltaY : ℝ) (s : CamState) : CamState :=
  let zoomDelta := deltaY * s.zoomSpeed * 0.01
  let cd1 := s.currentDistance + zoomDelta
  let safeMin :=
    match s.lockedTarget with
    | some _ => s.minDistance
    | none =>
      let distanceToSun := vecLength s.target
      let sm1 := if distanceToSun < 15 * 3 then max s.minDistance (15 * 2.5) else s.minDistance
      max sm1 20
  let cd2 := max safeMin (min s.maxDistance cd1)
  updateState { s with currentDistance := cd2,
                       spherical := { s.spherical with radius := cd2 } }

/-- `transitionToTarget` (lines 417–469), up to the first `animate()` call:
set `isTransitioning`, capture the start values in a fresh closure.  The
animation frames themselves (including the immediate first call, which
runs with elapsed time ≈ 0) are `animateStep`. -/
def transitionToTarget (B : Body) (goal : ℝ) (kind : LockMode) (dur : ℝ)
    (s : CamState) : CamState :=
  { s with isTransitioning := true,
           transitions := ⟨s.nextCtxId, B, kind, goal, s.target,
                           s.spherical.theta, s.spherical.phi,
                           s.spherical.radius, dur⟩ :: s.transitions,
           nextCtxId := s.nextCtxId + 1 }

/-- The `onComplete` callbacks passed by the three lock commands (lines
350–355, 375–380, 398–403): set `lockedTarget` and `lockMode`, then
`updateMinDistanceForTarget()`. -/
def commitTransition (ctx : TransCtx) (s : CamState) : CamState :=
  updateMinDistanceForTarget
    { s with lockedTarget := some ctx.body, lockMode := ctx.kind }

/-- One call of the `animate` closure inside `transitionToTarget` (lines
428–466) for the live closure `ctx`, at wall-clock `elapsed` since its
start; `livePos` is `targetObject.getPosition()` at that frame.  At
`progress = 1` the closure stops rescheduling itself, clears
`isTransitioning` and runs `onComplete`. -/
def animateStep (ctx : TransCtx) (livePos : Vec3) (elapsed : ℝ)
    (s : CamState) : CamState :=
  let progress := min (elapsed / ctx.duration) 1
  let eased := if progress < 0.5 then 2 * progress * progress
               else 1 - (-2 * progress + 2) ^ 2 / 2
  let targetVector := vsub s.cameraPos livePos
  let tsph := sphericalFromVector targetVector
  let newTheta := ctx.startTheta + (tsph.theta - ctx.startTheta) * eased
  let newPhi := ctx.startPhi + (tsph.phi - ctx.startPhi) * eased
  let newRadius := ctx.startRadius + (ctx.goal - ctx.startRadius) * eased
  let s1 := updateState
    { s with target := vlerp ctx.startTarget livePos eased,
             spherical := ⟨newRadius, newPhi, newTheta⟩,
             currentDistance := newRadius }
  if progress < 1 then s1
  else
    commitTransition ctx
      { s1 with isTransitioning := false,
                transitions := s1.transitions.filter (fun c => c.ctxId ≠ ctx.ctxId) }

/-- `unlockTarget` (lines 472–481); the meteor `removeMesh` side effect is
rendering-only. -/
def unlockTarget (s : CamState) : CamState :=
  { s with lockedTarget := none, lockMode := LockMode.nolock, isTransitioning := false }

/-- `getLockStatus` (lines 484–490). -/
def getLockStatus (s : CamState) : LockMode × Bool × Option Body :=
  (s.lockMode, s.lockedTarget.isSome, s.lockedTarget)

/-- `lockOntoSunWithTransition` (lines 334–356): no-op without a sun
instance or when already in sun mode; otherwise clear the current lock and
start a transition to distance `15 * 3`. -/
def lockOntoSunWithTransition (dur : ℝ) (s : CamState) : CamState :=
  match s.sunInstance with
  | none => s
  | some sun =>
    if s.lockMode = LockMode.sun then s
    else
      transitionToTarget sun (15 * 3) LockMode.sun dur
        { s with lockedTarget := none, lockMode := LockMode.nolock }

/-- `lockOntoEarthWithTransition` (lines 359–381): goal distance `1 * 5`. -/
def lockOntoEarthWithTransition (dur : ℝ) (s : CamState) : CamState :=
  match s.earthInstance with
  | none => s
  | some earth =>
    if s.lockMode = LockMode.earth then s
    else
      transitionToTarget earth (1 * 5) LockMode.earth dur
        { s with lockedTarget := none, lockMode := LockMode.nolock }

/-- `lockOntoMeteor` (lines 384–404): no-op when already locked onto the
same object; goal distance `(radius || 0.2) * 4` (`||` fires on the falsy
radius `0`); `instantiateMesh` is rendering-only. -/
def lockOntoMeteor (B : Body) (dur : ℝ) (s : CamState) : CamState :=
  if s.lockMode = LockMode.meteor ∧ (∃ C, s.lockedTarget = some C ∧ C.id = B.id) then s
  else
    let meteorRadius := if B.radius = 0 then 0.2 else B.radius
    transitionToTarget B (meteorRadius * 4) LockMode.meteor dur
      { s with lockedTarget := none, lockMode := LockMode.nolock }

/-- `Array.prototype.indexOf` on the meteors list (reference equality,
modelled through `Body.id`); `-1` when absent. -/
def indexOfBody (l : List Body) (B : Body) : ℤ :=
  match l.findIdx? (fun C => C.id == B.id) with
  | some n => (n : ℤ)
  | none => -1

/-- `setCurrentMeteor` (lines 309–316). -/
def setCurrentMeteor (B : Body) (s : CamState) : CamState :=
  let idx := indexOfBody s.meteorsList B
  let s1 := if idx ≠ -1 then { s with currentMeteorIndex := idx } else s
  { s1 with currentMeteor := some B }

/-- `setMeteorsList` (lines 319–322). -/
def setMeteorsList (l : List Body) (s : CamState) : CamState :=
  { s with meteorsList := l, currentMeteorIndex := if 0 < l.length then 0 else -1 }

/-- `setTargetObjects` (lines 303–306): the host wiring call that records
the scene's sun and earth instances. -/
def setTargetObjects (sun earth : Body) (s : CamState) : CamState :=
  { s with sunInstance := some sun, earthInstance := some earth }

/-- `lockOntoMeteorIfExists` (lines 325–331). -/
def lockOntoMeteorIfExists (dur : ℝ) (s : CamState) : CamState :=
  match s.currentMeteor with
  | some m => lockOntoMeteor m dur s
  | none => s

/-- A default body for the (guarded-away) out-of-range list access. -/
def defBody : Body := ⟨0, ⟨0, 0, 0⟩, 0⟩

/-- `lockOntoMeteorByIndex` (lines 407–414). -/
def lockOntoMeteorByIndex (i : ℤ) (dur : ℝ) (s : CamState) : CamState :=
  if s.meteorsList.isEmpty then s
  else if i < 0 ∨ (s.meteorsList.length : ℤ) ≤ i then s
  else
    let s1 := { s with currentMeteorIndex := i }
    let B := s1.meteorsList.getD i.toNat defBody
    lockOntoMeteor B dur (setCurrentMeteor B s1)

/-- `resetCamera` (lines 288–294). -/
def resetCamera (s : CamState) : CamState :=
  updateState { s with currentDistance := 75,
                       spherical := ⟨75, Real.pi / 2, 0⟩ }

/-- The `event.code` values handled by `onKeyDown` (lines 132–208). -/
inductive Key where
  | keyR
  | keyG
  | digit0
  | digit1
  | digit2
  | keyA
  | escape
  | arrowUp
  | arrowDown
  | arrowRight
  | arrowLeft
  | other
deriving DecidableEq

/-- `onKeyDown` (lines 132–208): ignored entirely while transitioning
(line 134); otherwise dispatch on the key code. -/
def onKeyDown (k : Key) (s : CamState) : CamState :=
  if s.isTransitioning then s
  else
    match k with
    | Key.keyR => resetCamera s
    | Key.keyG => { s with autoRotate := !s.autoRotate }
    | Key.digit0 => lockOntoSunWithTransition 1500 s
    | Key.digit1 => lockOntoEarthWithTransition 1500 s
    | Key.digit2 => lockOntoMeteorIfExists 1500 s
    | Key.keyA =>
      match s.meteorsList with
      | [] => s
      | first :: _ => lockOntoMeteor first 1500 (setCurrentMeteor first s)
    | Key.escape => unlockTarget s
    | Key.arrowUp =>
      let cd1 := max s.minDistance (s.currentDistance - 5)
      let cd2 :=
        match s.lockedTarget with
        | some _ => cd1
        | none =>
          let distanceToSun := vecLength s.target
          let c := if distanceToSun < 15 * 3 then max cd1 (15 * 2.5) else cd1
          max c 20
      updateState { s with currentDistance := cd2,
                           spherical := { s.spherical with radius := cd2 } }
    | Key.arrowDown =>
      let cd := min s.maxDistance (s.currentDistance + 5)
      updateState { s with currentDistance := cd,
                           spherical := { s.spherical with radius := cd } }
    | Key.arrowRight =>
      if 0 < s.meteorsList.length ∧
          s.currentMeteorIndex < (s.meteorsList.length : ℤ) - 1 then
        lockOntoMeteorByIndex (s.currentMeteorIndex + 1) 1500 s
      else s
    | Key.arrowLeft =>
      if 0 < s.meteorsList.length ∧ 0 < s.currentMeteorIndex then
        lockOntoMeteorByIndex (s.currentMeteorIndex - 1) 1500 s
      else s
    | Key.other => s

/-- The `CameraController` constructor (lines 4–49): default zoom bounds,
`currentDistance = max(minDistance, 50)`, spherical coordinates read off
the camera's position relative to the target, lock state cleared, and a
first `update()`. -/
def initState (cameraPos target : Vec3) (minD maxD : ℝ) : CamState :=
  updateState
    { target := target
      minDistance := minD
      maxDistance := maxD
      currentDistance := max minD 50
      rotationSpeed := 0.01
      zoomSpeed := 0.5
      isMouseDown := false
      lastMouseX := 0
      lastMouseY := 0
      spherical := sphericalFromVector (vsub cameraPos target)
      autoRotate := false
      autoRotateSpeed := 0.01
      lockedTarget := none
      lockMode := LockMode.nolock
      isTransitioning := false
      meteorsList := []
      currentMeteorIndex := -1
      currentMeteor := none
      sunInstance := none
      earthInstance := none
      cameraPos := cameraPos
      transitions := []
      nextCtxId := 0 }

/-- One externally triggered operation on the controller: the DOM input
handlers, the per-frame `update()` call of the host animation loops, and
one `requestAnimationFrame` call of any live transition closure. -/
inductive CamStep : CamState → CamState → Prop where
  | mouseDown (cx cy : ℝ) (s : CamState) : CamStep s (onMouseDown cx cy s)
  | mouseUp (s : CamState) : CamStep s (onMouseUp s)
  | mouseMove (cx cy : ℝ) (s : CamState) : CamStep s (onMouseMove cx cy s)
  | wheel (deltaY : ℝ) (s : CamState) : CamStep s (onWheel deltaY s)
  | key (k : Key) (s : CamState) : CamStep s (onKeyDown k s)
  | frame (s : CamState) : CamStep s (updateState s)
  | animate (ctx : TransCtx) (livePos : Vec3) (elapsed : ℝ) (s : CamState)
      (hctx : ctx ∈ s.transitions) :
      CamStep s (animateStep ctx livePos elapsed s)

/-- Zero or more controller operations. -/
def CamReachable : CamState → CamState → Prop := Relation.ReflTransGen CamStep

/-- The controller's full public surface as one step relation: every
`CamStep` event plus the host wiring calls `setTargetObjects` (lines
303–306), `setCurrentMeteor` (lines 309–316) and `setMeteorsList` (lines
319–322), which the scenes invoke after construction to install the
lockable bodies. -/
inductive CamOp : CamState → CamState → Prop where
  | step {s t : CamState} (h : CamStep s t) : CamOp s t
  | setBodies (sun earth : Body) (s : CamState) :
      CamOp s (setTargetObjects sun earth s)
  | setMeteors (l : List Body) (s : CamState) : CamOp s (setMeteorsList l s)
  | setMeteor (B : Body) (s : CamState) : CamOp s (setCurrentMeteor B s)

/-!
## IEEE special values and the defensive guards of `update`

`JsFloat` models a JavaScript number as either an (idealized) finite real,
`Infinity`, `-Infinity`, or `NaN`, with the arithmetic, comparison and
`Math.*` semantics the guarded code path of `CameraController.update`
relies on.
-/

/-- A JavaScript number: finite, `Infinity`, `-Infinity`, or `NaN`. -/
inductive JsFloat where
  | num (x : ℝ)
  | inf
  | ninf
  | nan

/-- JavaScript `isNaN`. -/
def jsIsNaN : JsFloat → Bool
  | JsFloat.nan => true
  | _ => false

/-- JavaScript `isFinite` (`false` on `NaN` and on both infinities). -/
def jsIsFinite : JsFloat → Bool
  | JsFloat.num _ => true
  | _ => false

/-- JavaScript `+` on numbers. -/
def jsAdd : JsFloat → JsFloat → JsFloat
  | JsFloat.nan, _ => JsFloat.nan
  | _, JsFloat.nan => JsFloat.nan
  | JsFloat.num a, JsFloat.num b => JsFloat.num (a + b)
  | JsFloat.inf, JsFloat.ninf => JsFloat.nan
  | JsFloat.ninf, JsFloat.inf => JsFloat.nan
  | JsFloat.inf, _ => JsFloat.inf
  | _, JsFloat.inf => JsFloat.inf
  | JsFloat.ninf, _ => JsFloat.ninf
  | _, JsFloat.ninf => JsFloat.ninf

/-- JavaScript `-` on numbers. -/
def jsSub : JsFloat → JsFloat → JsFloat
  | JsFloat.nan, _ => JsFloat.nan
  | _, JsFloat.nan => JsFloat.nan
  | JsFloat.num a, JsFloat.num b => JsFloat.num (a - b)
  | JsFloat.inf, JsFloat.inf => JsFloat.nan
  | JsFloat.ninf, JsFloat.ninf => JsFloat.nan
  | JsFloat.inf, _ => JsFloat.inf
  | _, JsFloat.inf => JsFloat.ninf
  | JsFloat.ninf, _ => JsFloat.ninf
  | _, JsFloat.ninf => JsFloat.inf

/-- JavaScript `*` on numbers (`0 * Infinity = NaN`). -/
def jsMul : JsFloat → JsFloat → JsFloat
  | JsFloat.nan, _ => JsFloat.nan
  | _, JsFloat.nan => JsFloat.nan
  | JsFloat.num a, JsFloat.num b => JsFloat.num (a * b)
  | JsFloat.num a, JsFloat.inf =>
    if 0 < a then JsFloat.inf else if a < 0 then JsFloat.ninf else JsFloat.nan
  | JsFloat.inf, JsFloat.num a =>
    if 0 < a then JsFloat.inf else if a < 0 then JsFloat.ninf else JsFloat.nan
  | JsFloat.num a, JsFloat.ninf =>
    if 0 < a then JsFloat.ninf else if a < 0 then JsFloat.inf else JsFloat.nan
  | JsFloat.ninf, JsFloat.num a =>
    if 0 < a then JsFloat.ninf else if a < 0 then JsFloat.inf else JsFloat.nan
  | JsFloat.inf, JsFloat.inf => JsFloat.inf
  | JsFloat.inf, JsFloat.ninf => JsFloat.ninf
  | JsFloat.ninf, JsFloat.inf => JsFloat.ninf
  | JsFloat.ninf, JsFloat.ninf => JsFloat.inf

/-- JavaScript `Math.sin` (`NaN` on non-finite input). -/
def jsSin : JsFloat → JsFloat
  | JsFloat.num x => JsFloat.num (Real.sin x)
  | _ => JsFloat.nan

/-- JavaScript `Math.cos` (`NaN` on non-finite input). -/
def jsCos : JsFloat → JsFloat
  | JsFloat.num x => JsFloat.num (Real.cos x)
  | _ => JsFloat.nan

/-- JavaScript `Math.abs`. -/
def jsAbs : JsFloat → JsFloat
  | JsFloat.num x => JsFloat.num |x|
  | JsFloat.inf => JsFloat.inf
  | JsFloat.ninf => JsFloat.inf
  | JsFloat.nan => JsFloat.nan

/-- JavaScript `Math.max` (`NaN`-propagating). -/
def jsMax : JsFloat → JsFloat → JsFloat
  | JsFloat.nan, _ => JsFloat.nan
  | _, JsFloat.nan => JsFloat.nan
  | JsFloat.num a, JsFloat.num b => JsFloat.num (max a b)
  | JsFloat.inf, _ => JsFloat.inf
  | _, JsFloat.inf => JsFloat.inf
  | JsFloat.ninf, b => b
  | a, JsFloat.ninf => a

/-- JavaScript `Math.min` (`NaN`-propagating). -/
def jsMin : JsFloat → JsFloat → JsFloat
  | JsFloat.nan, _ => JsFloat.nan
  | _, JsFloat.nan => JsFloat.nan
  | JsFloat.num a, JsFloat.num b => JsFloat.num (min a b)
  | JsFloat.ninf, _ => JsFloat.ninf
  | _, JsFloat.ninf => JsFloat.ninf
  | JsFloat.inf, b => b
  | a, JsFloat.inf => a

/-- JavaScript `<` (`false` whenever either side is `NaN`). -/
def jsLt : JsFloat → JsFloat → Bool
  | JsFloat.nan, _ => false
  | _, JsFloat.nan => false
  | JsFloat.num a, JsFloat.num b => decide (a < b)
  | JsFloat.inf, _ => false
  | JsFloat.ninf, JsFloat.ninf => false
  | JsFloat.ninf, _ => true
  | JsFloat.num _, JsFloat.inf => true
  | JsFloat.num _, JsFloat.ninf => false

/-- A locked body as seen by the `JsFloat` model of `update`. -/
structure JsBody where
  posX : JsFloat
  posY : JsFloat
  posZ : JsFloat
  radius : JsFloat

/-- The fields of `CameraController` read or written by `update`, with
IEEE special values. -/
structure JsCamState where
  sphericalRadius : JsFloat
  sphericalPhi : JsFloat
  sphericalTheta : JsFloat
  targetX : JsFloat
  targetY : JsFloat
  targetZ : JsFloat
  minDistance : JsFloat
  maxDistance : JsFloat
  currentDistance : JsFloat
  lockedTargetJs : Option JsBody
  isTransitioningJs : Bool
  autoRotateJs : Bool
  autoRotateSpeedJs : JsFloat
  camX : JsFloat
  camY : JsFloat
  camZ : JsFloat

/-- The source's first defensive guard (lines 213–220):
`isNaN(radius) || isNaN(phi) || isNaN(theta) || !isFinite(radius) ||
!isFinite(phi) || !isFinite(theta)`. -/
def badSpherical (s : JsCamState) : Bool :=
  jsIsNaN s.sphericalRadius || jsIsNaN s.sphericalPhi || jsIsNaN s.sphericalTheta ||
  !jsIsFinite s.sphericalRadius || !jsIsFinite s.sphericalPhi || !jsIsFinite s.sphericalTheta

/-- The source's second defensive guard (line 229): for the target ONLY
`isNaN` is tested — there is no `isFinite` check. -/
def nanTarget (s : JsCamState) : Bool :=
  jsIsNaN s.targetX || jsIsNaN s.targetY || jsIsNaN s.targetZ

/-- `updateMinDistanceForTarget` on `JsFloat` values (lines 256–285). -/
def jsUpdateMinDistance (s : JsCamState) : JsCamState :=
  match s.lockedTargetJs with
  | none => s
  | some B =>
    let newMin := jsMul B.radius (JsFloat.num 2.5)
    if jsLt (JsFloat.num 0.1) (jsAbs (jsSub s.minDistance newMin)) then
      if jsLt s.currentDistance newMin then
        { s with minDistance := newMin, currentDistance := newMin,
                 sphericalRadius := newMin }
      else { s with minDistance := newMin }
    else s

/-- `update` (lines 211–253) on `JsFloat` values, including both defensive
guards exactly as written in the source.  A failed spherical guard returns
with no mutation at all; a failed target guard returns after the `phi` and
`radius` clamps but before any camera-position write. -/
def jsUpdate (s : JsCamState) : JsCamState :=
  if badSpherical s then s
  else
    let phi1 := jsMax (JsFloat.num 0.01)
      (jsMin (jsSub (JsFloat.num Real.pi) (JsFloat.num 0.01)) s.sphericalPhi)
    let rad1 := jsMax s.minDistance (jsMin s.maxDistance s.sphericalRadius)
    let s1 := { s with sphericalPhi := phi1, sphericalRadius := rad1 }
    if nanTarget s1 then s1
    else
      let s2 :=
        match s1.lockedTargetJs, s1.isTransitioningJs with
        | some B, false =>
          jsUpdateMinDistance { s1 with targetX := B.posX, targetY := B.posY, targetZ := B.posZ }
        | _, _ => s1
      let s3 :=
        if s2.autoRotateJs then
          { s2 with sphericalTheta := jsAdd s2.sphericalTheta s2.autoRotateSpeedJs }
        else s2
      let px := jsAdd (jsMul (jsMul s3.sphericalRadius (jsSin s3.sphericalPhi))
                             (jsSin s3.sphericalTheta)) s3.targetX
      let py := jsAdd (jsMul s3.sphericalRadius (jsCos s3.sphericalPhi)) s3.targetY
      let pz := jsAdd (jsMul (jsMul s3.sphericalRadius (jsSin s3.sphericalPhi))
                             (jsCos s3.sphericalTheta)) s3.targetZ
      { s3 with camX := px, camY := py, camZ := pz }

/-!
## Invariants and concrete states used by the theorems
-/

/-- The distance/angle bounds exactly as the spec's camera-bounds property
states them (STRICT `phi` bounds). -/
def CamBoundsStrict (s : CamState) : Prop :=
  s.minDistance ≤ s.spherical.radius ∧ s.spherical.radius ≤ s.maxDistance ∧
  0.01 < s.spherical.phi ∧ s.spherical.phi < Real.pi - 0.01

/-- The distance/angle bounds with the closed `phi` interval that
`update`'s clamp actually produces. -/
def CamBounds (s : CamState) : Prop :=
  s.minDistance ≤ s.spherical.radius ∧ s.spherical.radius ≤ s.maxDistance ∧
  0.01 ≤ s.spherical.phi ∧ s.spherical.phi ≤ Real.pi - 0.01

/-- Every body the controller can be asked to lock onto (and every
in-flight transition target) fits inside the zoom range:
`radius * 2.5 ≤ maxDistance`. -/
def SceneBodiesOK (s : CamState) : Prop :=
  (∀ B, s.sunInstance = some B → B.radius * 2.5 ≤ s.maxDistance) ∧
  (∀ B, s.earthInstance = some B → B.radius * 2.5 ≤ s.maxDistance) ∧
  (∀ B, s.currentMeteor = some B → B.radius * 2.5 ≤ s.maxDistance) ∧
  (∀ B ∈ s.meteorsList, B.radius * 2.5 ≤ s.maxDistance) ∧
  (∀ c ∈ s.transitions, c.body.radius * 2.5 ≤ s.maxDistance) ∧
  (∀ B, s.lockedTarget = some B → B.radius * 2.5 ≤ s.maxDistance)

/-- Once a lock has committed, `minDistance` tracks the locked body's
`radius * 2.5` within the `0.1` tolerance of
`updateMinDistanceForTarget`. -/
def LockSyncProp (s : CamState) : Prop :=
  ∀ B, s.lockedTarget = some B → s.isTransitioning = false →
    |s.minDistance - B.radius * 2.5| ≤ 0.1

/-- The inductive camera invariant: ordered zoom limits, the (closed)
bounds, lock/limit synchronisation, and a scene whose lockable bodies fit
the zoom range. -/
def CamInv (s : CamState) : Prop :=
  s.minDistance ≤ s.maxDistance ∧ CamBounds s ∧ LockSyncProp s ∧ SceneBodiesOK s

/-- Lock-state consistency: `lockedTarget` is `null` iff `lockMode` is
`'none'`, both are cleared while a transition is in flight, and every live
transition closure commits a real lock kind. -/
def LockConsistent (s : CamState) : Prop :=
  (s.lockedTarget = none ↔ s.lockMode = LockMode.nolock) ∧
  (s.isTransitioning = true → s.lockedTarget = none) ∧
  (∀ c ∈ s.transitions, c.kind ≠ LockMode.nolock)

/-- The code's guard in `lockOntoMeteor`: already locked onto this very
object. -/
def alreadyLockedOn (s : CamState) (B : Body) : Prop :=
  s.lockMode = LockMode.meteor ∧ ∃ C, s.lockedTarget = some C ∧ C.id = B.id

/-- A meteor-lock transition onto `B` was pushed on top of the previous
transition list. -/
def startedMeteorTransition (s1 s : CamState) (B : Body) : Prop :=
  ∃ c, s1.transitions = c :: s.transitions ∧ c.body = B ∧ c.kind = LockMode.meteor

/-- A mid-transition controller state (free-roam fields populated, one
live transition closure): used to exercise the input handlers while
`isTransitioning` is set. -/
def c2S : CamState :=
  { target := ⟨150, 0, 0⟩
    minDistance := 2
    maxDistance := 50
    currentDistance := 30
    rotationSpeed := 0.01
    zoomSpeed := 0.5
    isMouseDown := true
    lastMouseX := 0
    lastMouseY := 0
    spherical := ⟨10, 1.5, 0⟩
    autoRotate := false
    autoRotateSpeed := 0.01
    lockedTarget := none
    lockMode := LockMode.nolock
    isTransitioning := true
    meteorsList := []
    currentMeteorIndex := -1
    currentMeteor := none
    sunInstance := none
    earthInstance := none
    cameraPos := ⟨150, 0, 10⟩
    transitions := []
    nextCtxId := 1 }

/-- The sun body of the slide scenes (`new Sun(scene, 15, ...)`). -/
def c3Sun : Body := ⟨0, ⟨0, 0, 0⟩, 15⟩

/-- A free camera in the intro-slide scene of `src/unnamed/part_000`
(`new CameraController(camera, earthPos, 2, 20)` and
`setZoomLimits(2, 20)`), camera straight above the origin. -/
def c3Start : CamState :=
  { target := ⟨0, 0, 0⟩
    minDistance := 2
    maxDistance := 20
    currentDistance := 10
    rotationSpeed := 0.01
    zoomSpeed := 0.5
    isMouseDown := false
    lastMouseX := 0
    lastMouseY := 0
    spherical := ⟨10, Real.pi / 2, 0⟩
    autoRotate := false
    autoRotateSpeed := 0.01
    lockedTarget := none
    lockMode := LockMode.nolock
    isTransitioning := false
    meteorsList := []
    currentMeteorIndex := -1
    currentMeteor := none
    sunInstance := some c3Sun
    earthInstance := none
    cameraPos := ⟨0, 10, 0⟩
    transitions := []
    nextCtxId := 0 }

/-- The state after pressing `0` (lock onto sun) in `c3Start`. -/
def c3Mid : CamState := onKeyDown Key.digit0 c3Start

/-- The transition closure created by that key press. -/
def c3Ctx : TransCtx :=
  ⟨0, c3Sun, LockMode.sun, 15 * 3, ⟨0, 0, 0⟩, 0, Real.pi / 2, 10, 1500⟩

/-- The state after the transition's final animation frame
(`elapsed = duration = 1500`). -/
def c3End : CamState := animateStep c3Ctx ⟨0, 0, 0⟩ 1500 c3Mid

/-- A well-formed free camera in the main `ThreeDemo` scene
(`minDistance = 80`, `maxDistance = 500`). -/
def c3W : CamState :=
  { target := ⟨0, 0, 0⟩
    minDistance := 80
    maxDistance := 500
    currentDistance := 100
    rotationSpeed := 0.01
    zoomSpeed := 0.5
    isMouseDown := false
    lastMouseX := 0
    lastMouseY := 0
    spherical := ⟨100, 1, 0⟩
    autoRotate := false
    autoRotateSpeed := 0.01
    lockedTarget := none
    lockMode := LockMode.nolock
    isTransitioning := false
    meteorsList := []
    currentMeteorIndex := -1
    currentMeteor := none
    sunInstance := none
    earthInstance := none
    cameraPos := ⟨0, 0, 100⟩
    transitions := []
    nextCtxId := 0 }

/-- The earth body of the main scene (`new Earth(scene, 1, 16,
new THREE.Vector3(150, 0, 0), ...)`). -/
def c4Earth : Body := ⟨1, ⟨150, 0, 0⟩, 1⟩

/-- The earth-lock transition closure of the `ThreeDemo` scene: goal
distance `1 * 5`, duration 1500, started from distance 80. -/
def c4Ctx : TransCtx :=
  ⟨0, c4Earth, LockMode.earth, 1 * 5, ⟨150, 0, 0⟩, 0, Real.pi / 2, 80, 1500⟩

/-- Mid-transition state of that earth lock in the `ThreeDemo` scene
(`minDistance = 80`, `maxDistance = 500`). -/
def c4Start : CamState :=
  { target := ⟨150, 0, 0⟩
    minDistance := 80
    maxDistance := 500
    currentDistance := 80
    rotationSpeed := 0.01
    zoomSpeed := 0.5
    isMouseDown := false
    lastMouseX := 0
    lastMouseY := 0
    spherical := ⟨80, Real.pi / 2, 0⟩
    autoRotate := false
    autoRotateSpeed := 0.01
    lockedTarget := none
    lockMode := LockMode.nolock
    isTransitioning := true
    meteorsList := []
    currentMeteorIndex := -1
    currentMeteor := none
    sunInstance := none
    earthInstance := some c4Earth
    cameraPos := ⟨150, 0, 10⟩
    transitions := [c4Ctx]
    nextCtxId := 1 }

/-- The state after that transition's final frame. -/
def c4End : CamState := animateStep c4Ctx ⟨150, 0, 0⟩ 1500 c4Start

/-- A camera state whose spherical coordinates are finite but whose
target `x` is `Infinity` (e.g. after locking onto a body whose propagated
position overflowed). -/
def c5S : JsCamState :=
  { sphericalRadius := JsFloat.num 10
    sphericalPhi := JsFloat.num 1
    sphericalTheta := JsFloat.num 0
    targetX := JsFloat.inf
    targetY := JsFloat.num 0
    targetZ := JsFloat.num 0
    minDistance := JsFloat.num 2
    maxDistance := JsFloat.num 50
    currentDistance := JsFloat.num 10
    lockedTargetJs := none
    isTransitioningJs := false
    autoRotateJs := false
    autoRotateSpeedJs := JsFloat.num 0.01
    camX := JsFloat.num 0
    camY := JsFloat.num 0
    camZ := JsFloat.num 0 }

/-- A camera state with `NaN` in `spherical.theta`. -/
def c5A : JsCamState :=
  { c5S with sphericalTheta := JsFloat.nan, targetX := JsFloat.num 3, camX := JsFloat.num 7 }

/-- A camera state with finite spherical coordinates and `NaN` in
`target.y`. -/
def c5B : JsCamState :=
  { c5S with targetX := JsFloat.num 3, targetY := JsFloat.nan, camX := JsFloat.num 7 }

/-- Two distinct meteors for the navigation witness. -/
def c8M0 : Body := ⟨10, ⟨1, 0, 0⟩, 0.1⟩

/-- Second meteor. -/
def c8M1 : Body := ⟨11, ⟨2, 0, 0⟩, 0.1⟩

/-- A free camera holding a two-meteor list, current index 0. -/
def c8S : CamState :=
  { target := ⟨0, 0, 0⟩
    minDistance := 2
    maxDistance := 50
    currentDistance := 10
    rotationSpeed := 0.01
    zoomSpeed := 0.5
    isMouseDown := false
    lastMouseX := 0
    lastMouseY := 0
    spherical := ⟨10, 1, 0⟩
    autoRotate := false
    autoRotateSpeed := 0.01
    lockedTarget := none
    lockMode := LockMode.nolock
    isTransitioning := false
    meteorsList := [c8M0, c8M1]
    currentMeteorIndex := 0
    currentMeteor := some c8M0
    sunInstance := none
    earthInstance := none
    cameraPos := ⟨0, 0, 10⟩
    transitions := []
    nextCtxId := 0 }

/-- A freshly constructed controller of the intro-slide geometry: camera
straight above the origin at height 10, zoom limits `[2, 20]`. -/
def c10Init : CamState := initState ⟨0, 10, 0⟩ ⟨0, 0, 0⟩ 2 20

/-- The same controller after the scene wiring `setTargetObjects(sun,
earth)` installs the sun (radius 15) and the earth. -/
def c10S1 : CamState := setTargetObjects c3Sun c4Earth c10Init

/-- The transition closure created by pressing `0` in `c10S1`. -/
def c10Ctx : TransCtx :=
  ⟨0, c3Sun, LockMode.sun, 15 * 3, ⟨0, 0, 0⟩, c10S1.spherical.theta,
   c10S1.spherical.phi, c10S1.spherical.radius, 1500⟩

/-- The state after pressing `0` (sun lock) in `c10S1`: a transition is
now in flight. -/
def c10S2 : CamState := onKeyDown Key.digit0 c10S1

/-- The state after that transition's final frame (`elapsed = duration`):
the sun lock has committed. -/
def c10S3 : CamState := animateStep c10Ctx ⟨0, 0, 0⟩ 1500 c10S2

end

/-!
## Theorems
-/

theorem createBatchLoop_sum (b total : ℕ) (hb : 0 < b) :
    ∀ fuel i, i ≤ total → total - i ≤ fuel →
      (createBatchLoop b total fuel i).sum = total - i := by
  intro fuel
  induction fuel with
  | zero =>
    intro i hi hf
    simp only [createBatchLoop, List.sum_nil]
    omega
  | succ n ih =>
    intro i hi hf
    by_cases h : i < total
    · simp only [createBatchLoop, if_pos h, List.sum_cons]
      rw [ih (min (i + b) total) (min_le_right _ _) (by omega)]
      omega
    · simp only [createBatchLoop, if_neg h, List.sum_nil]
      omega

theorem sum_take_le_sum (l : List ℕ) (k : ℕ) : (l.take k).sum ≤ l.sum := by
  calc (l.take k).sum ≤ (l.take k).sum + (l.drop k).sum := Nat.le_add_right _ _
    _ = l.sum := by rw [← List.sum_append, List.take_append_drop]

/-- C6: progressive batch creation over `N` parsed orbit records with the
cap `MAX_METEORS = 200` yields exactly `min N MAX_METEORS` meteors in
total, the accumulated count after any number of batches never exceeds the
cap, and 37 records with batch size 10 proceed as batches 10, 10, 10, 7. -/
theorem progressive_batch_completeness :
    (∀ N b : ℕ, 0 < b →
      (progressiveBatches N b).sum = min N MAX_METEORS ∧
      ∀ k, ((progressiveBatches N b).take k).sum ≤ MAX_METEORS) ∧
    progressiveBatches 37 10 = [10, 10, 10, 7] := by
  constructor
  · intro N b hb
    have hsum : (progressiveBatches N b).sum = min N MAX_METEORS := by
      unfold progressiveBatches
      rw [createBatchLoop_sum b (min N MAX_METEORS) hb (min N MAX_METEORS) 0
        (Nat.zero_le _) (by omega)]
      omega
    refine ⟨hsum, fun k => ?_⟩
    calc ((progressiveBatches N b).take k).sum ≤ (progressiveBatches N b).sum :=
          sum_take_le_sum _ _
      _ = min N MAX_METEORS := hsum
      _ ≤ MAX_METEORS := Nat.min_le_right _ _
  · decide

/-- Witness: the cap-respecting batch run at `N = 37`, `b = 10`. -/
theorem progressive_batch_completeness_witness :
    (progressiveBatches 37 10).sum = min 37 MAX_METEORS ∧
    ((progressiveBatches 37 10).take 2).sum ≤ MAX_METEORS ∧
    progressiveBatches 37 10 = [10, 10, 10, 7] :=
  ⟨(progressive_batch_completeness.1 37 10 (by decide)).1,
   (progressive_batch_completeness.1 37 10 (by decide)).2 2,
   progressive_batch_completeness.2⟩

theorem vecLength_nonneg (v : Vec3) : 0 ≤ vecLength v := Real.sqrt_nonneg _

theorem vecLength_smul (c : ℝ) (v : Vec3) :
    vecLength (vsmul c v) = |c| * vecLength v := by
  unfold vecLength vsmul
  rw [show (c * v.x) ^ 2 + (c * v.y) ^ 2 + (c * v.z) ^ 2
        = c ^ 2 * (v.x ^ 2 + v.y ^ 2 + v.z ^ 2) by ring,
      Real.sqrt_mul (sq_nonneg c), Real.sqrt_sq_eq_abs]

theorem simpleNoise_bounds (x y z : ℝ) :
    -(1 / 3) ≤ simpleNoise x y z ∧ simpleNoise x y z ≤ 1 / 3 := by
  unfold simpleNoise
  have h1 := Real.neg_one_le_sin (x * 2.1 + y * 1.3 + z * 0.7)
  have h2 := Real.sin_le_one (x * 2.1 + y * 1.3 + z * 0.7)
  have h3 := Real.neg_one_le_sin (x * 1.7 + y * 2.9 + z * 1.1)
  have h4 := Real.sin_le_one (x * 1.7 + y * 2.9 + z * 1.1)
  have h5 := Real.neg_one_le_sin (x * 3.3 + y * 0.9 + z * 2.3)
  have h6 := Real.sin_le_one (x * 3.3 + y * 0.9 + z * 2.3)
  constructor <;> linarith

theorem deformation_bounds (seed : ℝ) (d : Vec3) :
    -(0.53 / 3) ≤ deformationAt seed d ∧ deformationAt seed d ≤ 0.53 / 3 := by
  unfold deformationAt
  have h1 := simpleNoise_bounds (d.x * 3 + seed) (d.y * 3 + seed) (d.z * 3 + seed)
  have h2 := simpleNoise_bounds (d.x * 8 + seed) (d.y * 8 + seed) (d.z * 8 + seed)
  have h3 := simpleNoise_bounds (d.x * 15 + seed) (d.y * 15 + seed) (d.z * 15 + seed)
  constructor <;> [linarith [h1.1, h2.1, h3.1]; linarith [h1.2, h2.2, h3.2]]

/-- C7: every displaced vertex of the meteor geometry has distance from
the center between `0.55 * radius` and `1.15 * radius` (the actual
deformation keeps it inside the tighter `[0.797, 0.903] * radius`, so the
claimed envelope holds). -/
theorem geoid_vertex_radius_bounds (radius seed : ℝ) (v : Vec3)
    (hr : 0 ≤ radius) (hv : vecLength v ≠ 0) :
    0.55 * radius ≤ vecLength (displacedVertex radius seed v) ∧
    vecLength (displacedVertex radius seed v) ≤ 1.15 * radius := by
  have hvpos : 0 < vecLength v := lt_of_le_of_ne (vecLength_nonneg v) (Ne.symm hv)
  have hd := deformation_bounds seed (vnormalize v)
  have hlo : 0.55 * radius ≤ newRadiusAt radius seed (vnormalize v) := by
    unfold newRadiusAt; nlinarith [hd.1, hd.2]
  have hhi : newRadiusAt radius seed (vnormalize v) ≤ 1.15 * radius := by
    unfold newRadiusAt; nlinarith [hd.1, hd.2]
  have hnn : 0 ≤ newRadiusAt radius seed (vnormalize v) := by linarith
  have hlen : vecLength (displacedVertex radius seed v)
      = newRadiusAt radius seed (vnormalize v) := by
    unfold displacedVertex
    rw [vecLength_smul, abs_of_nonneg (div_nonneg hnn hvpos.le),
        div_mul_cancel₀ _ hv]
  rw [hlen]
  exact ⟨hlo, hhi⟩

/-- Witness: the bounds at `radius = 1`, `seed = 0`, the pole vertex. -/
theorem geoid_vertex_radius_bounds_witness :
    0.55 * 1 ≤ vecLength (displacedVertex 1 0 ⟨0, 1, 0⟩) ∧
    vecLength (displacedVertex 1 0 ⟨0, 1, 0⟩) ≤ 1.15 * 1 :=
  geoid_vertex_radius_bounds 1 0 ⟨0, 1, 0⟩ (by norm_num)
    (by
      unfold vecLength
      rw [show (0:ℝ) ^ 2 + 1 ^ 2 + 0 ^ 2 = 1 by norm_num, Real.sqrt_one]
      norm_num)

theorem rmod_add_right (t T : ℝ) (hT : T ≠ 0) : rmod (t + T) T = rmod t T := by
  unfold rmod
  rw [show (t + T) / T = t / T + 1 by field_simp, Int.floor_add_one]
  push_cast
  ring

/-- C9 (spec-modelled): for valid orbital elements, the propagated
position is exactly periodic in the period, hence in particular equal at
`t` and `t + period` within the claimed `1e-4` relative tolerance. -/
theorem orbit_periodicity (el : OrbitalElements) (t : ℝ)
    (ha : 0 < el.semiMajorAxis) (he0 : 0 ≤ el.eccentricity)
    (he1 : el.eccentricity < 1) (hT : 0 < el.period) :
    propagate el (t + el.period) = propagate el t ∧
    vecLength (vsub (propagate el (t + el.period)) (propagate el t))
      ≤ 1e-4 * vecLength (propagate el t) := by
  have hM : meanAnomaly el (t + el.period) = meanAnomaly el t := by
    unfold meanAnomaly
    rw [rmod_add_right t el.period hT.ne']
  have heq : propagate el (t + el.period) = propagate el t := by
    unfold propagate
    rw [hM]
  refine ⟨heq, ?_⟩
  rw [heq]
  have hz : vsub (propagate el t) (propagate el t) = ⟨0, 0, 0⟩ := by
    unfold vsub
    simp
  rw [hz]
  have : vecLength ⟨0, 0, 0⟩ = 0 := by
    unfold vecLength
    simp
  rw [this]
  exact mul_nonneg (by norm_num) (vecLength_nonneg _)

/-- Witness: periodicity at the spec's concrete circular elements
`a = 150, e = 0, T = 365`, `t = 0`. -/
theorem orbit_periodicity_witness :
    propagate ⟨150, 0, 365, 0, 0, 0⟩ (0 + (365 : ℝ)) = propagate ⟨150, 0, 365, 0, 0, 0⟩ 0 :=
  (orbit_periodicity ⟨150, 0, 365, 0, 0, 0⟩ 0 (by norm_num) (by norm_num)
    (by norm_num) (by norm_num)).1





/-- C2 counterexample: in a transitioning state (`isTransitioning = true`)
a mouse-drag event still rotates `theta` and a wheel event still changes
`currentDistance` — only the keyboard handler checks the flag. -/
theorem transition_input_counterexample :
    c2S.isTransitioning = true ∧
    (onMouseMove 10 0 c2S).spherical.theta ≠ c2S.spherical.theta ∧
    (onWheel 100 c2S).currentDistance ≠ c2S.currentDistance := by
  refine ⟨rfl, ?_, ?_⟩
  · simp only [onMouseMove, c2S, updateState, updateMinDistanceForTarget]
    norm_num
  · have h150 : vecLength ⟨150, 0, 0⟩ = 150 := by
      unfold vecLength
      rw [show (150:ℝ) ^ 2 + 0 ^ 2 + 0 ^ 2 = 150 ^ 2 by norm_num]
      exact Real.sqrt_sq (by norm_num)
    simp only [onWheel, c2S, updateState, updateMinDistanceForTarget, h150]
    norm_num [max_def, min_def]

/-- C2 (amended): while `isTransitioning` is set, every `onKeyDown`
command — in particular arrow-key zoom — is ignored and the whole state is
unchanged; mouse drag and wheel zoom are NOT guarded (see the
counterexample). -/
theorem transition_blocks_keyboard (s : CamState) (k : Key)
    (h : s.isTransitioning = true) : onKeyDown k s = s := by
  unfold onKeyDown
  rw [h]
  simp

/-- Witness: an arrow-up key press during the transition of `c2S` is a
no-op. -/
theorem transition_blocks_keyboard_witness : onKeyDown Key.arrowUp c2S = c2S :=
  transition_blocks_keyboard c2S Key.arrowUp rfl

/-- C5 counterexample: with finite spherical coordinates but
`target.x = Infinity`, `update` does NOT skip the frame — the `Infinity`
passes the target guard (which only tests `isNaN`) and propagates into the
rendered camera position. -/
theorem nan_guard_counterexample :
    jsIsFinite c5S.targetX = false ∧
    (jsUpdate c5S).camX = JsFloat.inf ∧
    c5S.camX = JsFloat.num 0 ∧
    (jsUpdate c5S).camX ≠ c5S.camX := by
  refine ⟨rfl, rfl, rfl, ?_⟩
  intro h
  exact JsFloat.noConfusion (h : JsFloat.inf = JsFloat.num 0)

/-- C5 (amended): a `NaN` or non-finite spherical component makes `update`
return with the state completely untouched, and a `NaN` target component
makes it return before any camera-position or target write (after the
`phi`/`radius` clamps); only an infinite (non-`NaN`) target component
escapes the guards. -/
theorem update_nan_guards (s : JsCamState) :
    (badSpherical s = true → jsUpdate s = s) ∧
    (badSpherical s = false → nanTarget s = true →
      (jsUpdate s).camX = s.camX ∧ (jsUpdate s).camY = s.camY ∧
      (jsUpdate s).camZ = s.camZ ∧ (jsUpdate s).targetX = s.targetX ∧
      (jsUpdate s).targetY = s.targetY ∧ (jsUpdate s).targetZ = s.targetZ ∧
      (jsUpdate s).minDistance = s.minDistance ∧
      (jsUpdate s).lockedTargetJs = s.lockedTargetJs) := by
  constructor
  · intro h
    unfold jsUpdate
    rw [h]
    simp
  · intro h1 h2
    unfold jsUpdate
    rw [h1]
    simp only [Bool.false_eq_true, if_false]
    have h2' : nanTarget { s with
        sphericalPhi := jsMax (JsFloat.num 0.01)
          (jsMin (jsSub (JsFloat.num Real.pi) (JsFloat.num 0.01)) s.sphericalPhi),
        sphericalRadius := jsMax s.minDistance (jsMin s.maxDistance s.sphericalRadius) }
        = true := h2
    rw [h2']
    simp

/-- Witness: the `NaN`-theta state is fully skipped; the `NaN`-target
state keeps its camera position. -/
theorem update_nan_guards_witness :
    jsUpdate c5A = c5A ∧ (jsUpdate c5B).camX = c5B.camX :=
  ⟨(update_nan_guards c5A).1 rfl, ((update_nan_guards c5B).2 rfl rfl).1⟩

theorem half_le_sin (y : ℝ) (hy1 : Real.pi / 6 ≤ y) (hy2 : y ≤ 5 * Real.pi / 6) :
    1 / 2 ≤ Real.sin y := by
  have hpi := Real.pi_pos
  have hmono := Real.strictMonoOn_sin.monotoneOn
  rcases le_or_lt y (Real.pi / 2) with h | h
  · calc (1:ℝ)/2 = Real.sin (Real.pi / 6) := Real.sin_pi_div_six.symm
      _ ≤ Real.sin y := by
        apply hmono
        · constructor <;> [linarith; linarith]
        · constructor <;> [linarith; linarith]
        · exact hy1
  · rw [← Real.sin_pi_sub]
    calc (1:ℝ)/2 = Real.sin (Real.pi / 6) := Real.sin_pi_div_six.symm
      _ ≤ Real.sin (Real.pi - y) := by
        apply hmono
        · constructor <;> [linarith; linarith]
        · constructor <;> [linarith; linarith]
        · linarith

theorem sin_ge_half (x : ℝ) (n : ℕ)
    (h1 : (2 * (n : ℝ) + 1 / 6) * 3.141593 ≤ x)
    (h2 : x ≤ (2 * (n : ℝ) + 5 / 6) * 3.141592) :
    1 / 2 ≤ Real.sin x := by
  have hpl : (3.141592 : ℝ) < Real.pi := by
    have := Real.pi_gt_d6
    linarith
  have hph : Real.pi < 3.141593 := Real.pi_lt_d6
  have hn : (0 : ℝ) ≤ (n : ℝ) := Nat.cast_nonneg n
  have haux1 : 0 ≤ 2 * (n : ℝ) * (3.141593 - Real.pi) := by
    apply mul_nonneg (by linarith)
    linarith
  have haux2 : 0 ≤ 2 * (n : ℝ) * (Real.pi - 3.141592) := by
    apply mul_nonneg (by linarith)
    linarith
  have hsin : Real.sin x = Real.sin (x - (n : ℝ) * (2 * Real.pi)) := by
    rw [show x = (x - (n : ℝ) * (2 * Real.pi)) + (n : ℝ) * (2 * Real.pi) by ring] at h1 ⊢
    rw [Real.sin_add_nat_mul_two_pi]
    ring_nf
  rw [hsin]
  apply half_le_sin
  · nlinarith
  · nlinarith

theorem sin_le_neg_half (x : ℝ) (n : ℕ)
    (h1 : (2 * (n : ℝ) + 1 + 1 / 6) * 3.141593 ≤ x)
    (h2 : x ≤ (2 * (n : ℝ) + 1 + 5 / 6) * 3.141592) :
    Real.sin x ≤ -(1 / 2) := by
  have hpl : (3.141592 : ℝ) < Real.pi := by
    have := Real.pi_gt_d6
    linarith
  have hph : Real.pi < 3.141593 := Real.pi_lt_d6
  have hn : (0 : ℝ) ≤ (n : ℝ) := Nat.cast_nonneg n
  have haux1 : 0 ≤ 2 * (n : ℝ) * (3.141593 - Real.pi) := by
    apply mul_nonneg (by linarith)
    linarith
  have haux2 : 0 ≤ 2 * (n : ℝ) * (Real.pi - 3.141592) := by
    apply mul_nonneg (by linarith)
    linarith
  have hsin : Real.sin x
      = -Real.sin (x - Real.pi - (n : ℝ) * (2 * Real.pi)) := by
    rw [show x = ((x - Real.pi - (n : ℝ) * (2 * Real.pi)) + Real.pi)
          + (n : ℝ) * (2 * Real.pi) by ring]
    rw [Real.sin_add_nat_mul_two_pi, Real.sin_add_pi]
    ring_nf
  rw [hsin]
  have : 1 / 2 ≤ Real.sin (x - Real.pi - (n : ℝ) * (2 * Real.pi)) := by
    apply half_le_sin
    · nlinarith
    · nlinarith
  linarith

theorem defo_pos : (0.03 : ℝ) ≤ deformationAt 0.78 ⟨0, 1, 0⟩ := by
  unfold deformationAt simpleNoise
  norm_num
  have hA3 : (1:ℝ)/2 ≤ Real.sin 7.098 := sin_ge_half 7.098 1 (by norm_num) (by norm_num)
  have hB3 : (1:ℝ)/2 ≤ Real.sin 13.146 := sin_ge_half 13.146 2 (by norm_num) (by norm_num)
  have hC3 : (1:ℝ)/2 ≤ Real.sin 7.77 := sin_ge_half 7.77 1 (by norm_num) (by norm_num)
  have hA8 : (1:ℝ)/2 ≤ Real.sin 13.598 := sin_ge_half 13.598 2 (by norm_num) (by norm_num)
  have hB8 : (1:ℝ)/2 ≤ Real.sin 27.646 := sin_ge_half 27.646 4 (by norm_num) (by norm_num)
  have hC8 := Real.neg_one_le_sin (12.27 : ℝ)
  have hA15 := Real.neg_one_le_sin (22.698 : ℝ)
  have hB15 := Real.neg_one_le_sin (47.946 : ℝ)
  have hC15 := Real.neg_one_le_sin (18.57 : ℝ)
  have hs1 := Real.sin_le_one (7.098 : ℝ)
  have hs2 := Real.sin_le_one (13.146 : ℝ)
  linarith

theorem defo_neg : deformationAt 0.23 ⟨0, 1, 0⟩ ≤ -(0.03 : ℝ) := by
  unfold deformationAt simpleNoise
  norm_num
  have hA3 : Real.sin (4.843 : ℝ) ≤ -(1/2) := sin_le_neg_half 4.843 0 (by norm_num) (by norm_num)
  have hB3 : Real.sin (10.011 : ℝ) ≤ -(1/2) := sin_le_neg_half 10.011 1 (by norm_num) (by norm_num)
  have hC3 : Real.sin (4.195 : ℝ) ≤ -(1/2) := sin_le_neg_half 4.195 0 (by norm_num) (by norm_num)
  have hA8 : Real.sin (11.343 : ℝ) ≤ -(1/2) := sin_le_neg_half 11.343 1 (by norm_num) (by norm_num)
  have hB8 : Real.sin (24.511 : ℝ) ≤ -(1/2) := sin_le_neg_half 24.511 3 (by norm_num) (by norm_num)
  have hC8 := Real.sin_le_one (8.695 : ℝ)
  have hA15 := Real.sin_le_one (20.443 : ℝ)
  have hB15 := Real.sin_le_one (44.811 : ℝ)
  have hC15 := Real.sin_le_one (14.995 : ℝ)
  linarith

theorem geoid_head (radius : ℝ) (seg : ℕ) (r : ℝ) :
    (createGeoidVertices radius seg r).head?
      = some (displacedVertex radius (r * 1000) (sphereVertex radius seg seg 0 0)) := by
  unfold createGeoidVertices
  rw [List.range_succ_eq_map, List.flatMap_cons, List.map_cons,
      List.cons_append, List.head?_cons]

theorem pole_vertex (radius : ℝ) (w h : ℕ) :
    sphereVertex radius w h 0 0 = ⟨0, radius, 0⟩ := by
  unfold sphereVertex
  norm_num [Vec3.mk.injEq]

theorem vnormalize_pole : vnormalize ⟨0, 1, 0⟩ = ⟨0, 1, 0⟩ := by
  unfold vnormalize vsmul vecLength
  rw [show (0:ℝ) ^ 2 + 1 ^ 2 + 0 ^ 2 = 1 by norm_num, Real.sqrt_one]
  norm_num [Vec3.mk.injEq]

theorem displaced_pole_y (s : ℝ) :
    (displacedVertex 1 s ⟨0, 1, 0⟩).y = 0.85 + deformationAt s ⟨0, 1, 0⟩ * 0.3 := by
  unfold displacedVertex
  rw [vnormalize_pole]
  unfold vsmul vecLength newRadiusAt
  rw [show (0:ℝ) ^ 2 + 1 ^ 2 + 0 ^ 2 = 1 by norm_num, Real.sqrt_one]
  norm_num

/-- C1 counterexample: the mesh generator of the source has NO seed
parameter — `createGeoidGeometry(radius, segments)` draws
`seed = Math.random() * 1000` internally on every call — so two calls with
the identical arguments `(radius = 1, segments = 8)` but the two (legal)
internal draws `0.00078` and `0.00023` produce different vertex
positions: the generated geometry is not a pure function of its
arguments. -/
theorem mesh_determinism_counterexample :
    ((0:ℝ) ≤ 0.00078 ∧ (0.00078:ℝ) < 1) ∧
    ((0:ℝ) ≤ 0.00023 ∧ (0.00023:ℝ) < 1) ∧
    createGeoidVertices 1 8 0.00078 ≠ createGeoidVertices 1 8 0.00023 := by
  refine ⟨⟨by norm_num, by norm_num⟩, ⟨by norm_num, by norm_num⟩, ?_⟩
  intro heq
  have h1 := congrArg List.head? heq
  rw [geoid_head, geoid_head] at h1
  have h2 := Option.some.inj h1
  rw [pole_vertex] at h2
  have h3 := congrArg Vec3.y h2
  rw [show (0.00078 : ℝ) * 1000 = 0.78 by norm_num,
      show (0.00023 : ℝ) * 1000 = 0.23 by norm_num,
      displaced_pole_y, displaced_pole_y] at h3
  have hp := defo_pos
  have hn := defo_neg
  linarith [h3.le, h3.ge]

/-- C1 (amended): the per-vertex displacement pipeline is a pure function
of `(radius, segments, seed)` — two evaluations with the same radius,
segment count and the same internal `Math.random()` draw give identical
vertex lists — but the seed is not a caller-supplied argument: it is drawn
afresh inside `createGeoidGeometry`, and distinct draws (e.g. `0.00078`
vs `0.00023`) change the output. -/
theorem mesh_determinism_amended :
    (∀ (radius : ℝ) (seg : ℕ) (rand : ℝ),
      createGeoidVertices radius seg rand = createGeoidVertices radius seg rand) ∧
    createGeoidVertices 1 8 0.00078 ≠ createGeoidVertices 1 8 0.00023 := by
  refine ⟨fun _ _ _ => rfl, ?_⟩
  intro heq
  have h1 := congrArg List.head? heq
  rw [geoid_head, geoid_head] at h1
  have h2 := Option.some.inj h1
  rw [pole_vertex] at h2
  have h3 := congrArg Vec3.y h2
  rw [show (0.00078 : ℝ) * 1000 = 0.78 by norm_num,
      show (0.00023 : ℝ) * 1000 = 0.23 by norm_num,
      displaced_pole_y, displaced_pole_y] at h3
  have hp := defo_pos
  have hn := defo_neg
  linarith [h3.le, h3.ge]

theorem findIdx_nodup_getD (l : List Body) (hnd : (l.map Body.id).Nodup) :
    ∀ k i, k < l.length →
      List.findIdx? (fun C => C.id == (l.getD k defBody).id) l i = some (i + k) := by
  induction l with
  | nil => intro k i hk; cases hk
  | cons B t ih =>
    intro k i hk
    simp only [List.map_cons] at hnd
    rcases List.nodup_cons.1 hnd with ⟨hBnot, hndt⟩
    cases k with
    | zero =>
      rw [List.getD_cons_zero, List.findIdx?_cons]
      simp
    | succ k =>
      have hk2 : k < t.length := by simpa using hk
      have hmem : t.getD k defBody ∈ t := by
        rw [List.getD_eq_getElem t defBody hk2]
        exact List.getElem_mem hk2
      have hne : (B.id == ((B :: t).getD (k + 1) defBody).id) = false := by
        rw [List.getD_cons_succ, beq_eq_false_iff_ne]
        intro hEq
        exact hBnot (hEq ▸ List.mem_map_of_mem Body.id hmem)
      rw [List.findIdx?_cons, hne]
      simp only [Bool.false_eq_true, if_false]
      rw [List.getD_cons_succ]
      rw [List.getD_cons_succ] at hne
      rw [ih hndt k (i + 1) hk2]
      congr 1
      omega

theorem indexOfBody_getD (l : List Body) (hnd : (l.map Body.id).Nodup)
    (k : ℕ) (hk : k < l.length) :
    indexOfBody l (l.getD k defBody) = (k : ℤ) := by
  unfold indexOfBody
  rw [findIdx_nodup_getD l hnd k 0 hk]
  simp

theorem lockOntoMeteorByIndex_spec (s : CamState) (i : ℤ)
    (hnd : (s.meteorsList.map Body.id).Nodup)
    (h0 : 0 ≤ i) (hlt : i < (s.meteorsList.length : ℤ)) :
    (lockOntoMeteorByIndex i 1500 s).currentMeteorIndex = i ∧
    (∀ B, B = s.meteorsList.getD i.toNat defBody → ¬ alreadyLockedOn s B →
      startedMeteorTransition (lockOntoMeteorByIndex i 1500 s) s B) := by
  have hlen : i.toNat < s.meteorsList.length := by omega
  have hemp : s.meteorsList.isEmpty = false := by
    rw [List.isEmpty_eq_false_iff_exists_mem]
    have := List.getElem_mem (l := s.meteorsList) (n := i.toNat) hlen
    exact ⟨_, this⟩
  have hidx : indexOfBody s.meteorsList (s.meteorsList.getD i.toNat defBody) = i := by
    rw [indexOfBody_getD s.meteorsList hnd i.toNat hlen, Int.toNat_of_nonneg h0]
  unfold lockOntoMeteorByIndex
  rw [hemp]
  simp only [Bool.false_eq_true, if_false]
  rw [if_neg (by omega)]
  unfold setCurrentMeteor
  simp only []
  rw [show ({ s with currentMeteorIndex := i } : CamState).meteorsList = s.meteorsList from rfl]
  rw [show ({ s with currentMeteorIndex := i } : CamState).meteorsList.getD i.toNat defBody
        = s.meteorsList.getD i.toNat defBody from rfl] at *
  constructor
  · rw [hidx]
    rw [if_pos (by omega : i ≠ -1)]
    unfold lockOntoMeteor
    split
    · rfl
    · unfold transitionToTarget
      rfl
  · intro B hB hnal
    subst hB
    rw [hidx, if_pos (by omega : i ≠ -1)]
    unfold lockOntoMeteor
    rw [if_neg (by
      intro hcon
      exact hnal ⟨hcon.1, hcon.2⟩)]
    unfold transitionToTarget startedMeteorTransition
    exact ⟨_, rfl, rfl, rfl⟩

/-- C8: with a non-empty meteors list of length `n`, a current index in
`[0, n-1]` (the list entries being distinct objects) and no transition in
flight, ArrowRight moves the index to `min (i+1) (n-1)`, ArrowLeft to
`max (i-1) 0` (no wrapping: at an end the index is unchanged), KeyA jumps
to index 0; and each index change starts a meteor-lock transition onto the
meteor at the new index (unless the camera is already locked onto that
very meteor, in which case `lockOntoMeteor` is a no-op by design). -/
theorem meteor_navigation (s : CamState)
    (ht : s.isTransitioning = false)
    (hne : s.meteorsList ≠ [])
    (hnd : (s.meteorsList.map Body.id).Nodup)
    (hi0 : 0 ≤ s.currentMeteorIndex)
    (hiN : s.currentMeteorIndex < (s.meteorsList.length : ℤ)) :
    ((onKeyDown Key.arrowRight s).currentMeteorIndex
        = min (s.currentMeteorIndex + 1) ((s.meteorsList.length : ℤ) - 1)) ∧
    ((onKeyDown Key.arrowLeft s).currentMeteorIndex
        = max (s.currentMeteorIndex - 1) 0) ∧
    ((onKeyDown Key.keyA s).currentMeteorIndex = 0) ∧
    (∀ B, s.currentMeteorIndex + 1 < (s.meteorsList.length : ℤ) →
      B = s.meteorsList.getD (s.currentMeteorIndex + 1).toNat defBody →
      ¬ alreadyLockedOn s B →
      startedMeteorTransition (onKeyDown Key.arrowRight s) s B) ∧
    (∀ B, 0 < s.currentMeteorIndex →
      B = s.meteorsList.getD (s.currentMeteorIndex - 1).toNat defBody →
      ¬ alreadyLockedOn s B →
      startedMeteorTransition (onKeyDown Key.arrowLeft s) s B) ∧
    (∀ B, B = s.meteorsList.getD 0 defBody → ¬ alreadyLockedOn s B →
      startedMeteorTransition (onKeyDown Key.keyA s) s B) := by
  have hlen0 : 0 < s.meteorsList.length := List.length_pos.2 hne
  refine ⟨?_, ?_, ?_, ?_, ?_, ?_⟩
  · unfold onKeyDown
    rw [ht]
    simp only [Bool.false_eq_true, if_false]
    by_cases h : s.currentMeteorIndex < (s.meteorsList.length : ℤ) - 1
    · rw [if_pos ⟨hlen0, h⟩]
      rw [(lockOntoMeteorByIndex_spec s (s.currentMeteorIndex + 1) hnd
            (by omega) (by omega)).1]
      omega
    · rw [if_neg (by tauto)]
      omega
  · unfold onKeyDown
    rw [ht]
    simp only [Bool.false_eq_true, if_false]
    by_cases h : 0 < s.currentMeteorIndex
    · rw [if_pos ⟨hlen0, h⟩]
      rw [(lockOntoMeteorByIndex_spec s (s.currentMeteorIndex - 1) hnd
            (by omega) (by omega)).1]
      omega
    · rw [if_neg (by tauto)]
      omega
  · unfold onKeyDown
    rw [ht]
    simp only [Bool.false_eq_true, if_false]
    rcases hl : s.meteorsList with _ | ⟨first, rest⟩
    · exact absurd hl hne
    · show (lockOntoMeteor first 1500 (setCurrentMeteor first s)).currentMeteorIndex = 0
      have hidx : indexOfBody s.meteorsList first = (0 : ℤ) := by
        have h2 := indexOfBody_getD s.meteorsList hnd 0 hlen0
        rw [hl, List.getD_cons_zero] at h2
        rw [hl]
        exact_mod_cast h2
      unfold setCurrentMeteor
      simp only [hidx]
      rw [if_pos (by omega : (0:ℤ) ≠ -1)]
      unfold lockOntoMeteor
      split
      · rfl
      · unfold transitionToTarget
        rfl
  · intro B hlt2 hB hnal
    unfold onKeyDown
    rw [ht]
    simp only [Bool.false_eq_true, if_false]
    rw [if_pos ⟨hlen0, by omega⟩]
    exact (lockOntoMeteorByIndex_spec s (s.currentMeteorIndex + 1) hnd
      (by omega) (by omega)).2 B hB hnal
  · intro B hgt hB hnal
    unfold onKeyDown
    rw [ht]
    simp only [Bool.false_eq_true, if_false]
    rw [if_pos ⟨hlen0, hgt⟩]
    exact (lockOntoMeteorByIndex_spec s (s.currentMeteorIndex - 1) hnd
      (by omega) (by omega)).2 B hB hnal
  · intro B hB hnal
    unfold onKeyDown
    rw [ht]
    simp only [Bool.false_eq_true, if_false]
    rcases hl : s.meteorsList with _ | ⟨first, rest⟩
    · exact absurd hl hne
    · have hfirst : B = first := by
        rw [hB, hl, List.getD_cons_zero]
      subst hfirst
      show startedMeteorTransition (lockOntoMeteor B 1500 (setCurrentMeteor B s)) s B
      have hidx : indexOfBody s.meteorsList B = (0 : ℤ) := by
        have h2 := indexOfBody_getD s.meteorsList hnd 0 hlen0
        rw [hl, List.getD_cons_zero] at h2
        rw [hl]
        exact_mod_cast h2
      unfold setCurrentMeteor
      simp only [hidx]
      rw [if_pos (by omega : (0:ℤ) ≠ -1)]
      unfold lockOntoMeteor
      rw [if_neg (by
        intro hcon
        exact hnal ⟨hcon.1, hcon.2⟩)]
      unfold transitionToTarget startedMeteorTransition
      exact ⟨_, rfl, rfl, rfl⟩

/-- Witness: in the two-meteor state `c8S` (index 0), ArrowRight moves the
index to 1 and starts a transition onto the second meteor. -/
theorem meteor_navigation_witness :
    (onKeyDown Key.arrowRight c8S).currentMeteorIndex
      = min (c8S.currentMeteorIndex + 1) ((c8S.meteorsList.length : ℤ) - 1) ∧
    startedMeteorTransition (onKeyDown Key.arrowRight c8S) c8S c8M1 :=
  ⟨(meteor_navigation c8S rfl (List.cons_ne_nil _ _) (by decide) (by decide)
      (by decide)).1,
   (meteor_navigation c8S rfl (List.cons_ne_nil _ _) (by decide) (by decide)
      (by decide)).2.2.2.1 c8M1 (by decide) rfl
      (fun h => LockMode.noConfusion h.1)⟩

theorem umd_fields (s : CamState) :
    ∃ mn cd r, updateMinDistanceForTarget s
      = { s with minDistance := mn, currentDistance := cd,
                 spherical := ⟨r, s.spherical.phi, s.spherical.theta⟩ } := by
  obtain ⟨tg, mn, mx, cd, rs, zs, md, lx, ly, ⟨sr, sp, st⟩, ar, ars, lt, lm, it,
    ml, cmi, cm, si, ei, cp, tr, nci⟩ := s
  unfold updateMinDistanceForTarget
  cases lt with
  | none => exact ⟨mn, cd, sr, rfl⟩
  | some B =>
    dsimp only
    split_ifs with h1 h2
    · exact ⟨_, _, _, rfl⟩
    · exact ⟨_, cd, sr, rfl⟩
    · exact ⟨mn, cd, sr, rfl⟩

theorem updateState_lock_fields (s : CamState) :
    (updateState s).lockedTarget = s.lockedTarget ∧
    (updateState s).lockMode = s.lockMode ∧
    (updateState s).isTransitioning = s.isTransitioning ∧
    (updateState s).transitions = s.transitions ∧
    (updateState s).meteorsList = s.meteorsList ∧
    (updateState s).currentMeteorIndex = s.currentMeteorIndex ∧
    (updateState s).currentMeteor = s.currentMeteor ∧
    (updateState s).sunInstance = s.sunInstance ∧
    (updateState s).earthInstance = s.earthInstance ∧
    (updateState s).maxDistance = s.maxDistance ∧
    (updateState s).nextCtxId = s.nextCtxId := by
  obtain ⟨tg, mn, mx, cd, rs, zs, md, lx, ly, ⟨sr, sp, st⟩, ar, ars, lt, lm, it,
    ml, cmi, cm, si, ei, cp, tr, nci⟩ := s
  unfold updateState updateMinDistanceForTarget
  cases lt with
  | none => cases ar <;> simp
  | some B =>
    cases it with
    | true => cases ar <;> simp
    | false => cases ar <;> dsimp only <;> split_ifs <;> simp

theorem lockConsistent_updateState (u : CamState) (hu : LockConsistent u) :
    LockConsistent (updateState u) := by
  obtain ⟨e1, e2, e3, e4, _⟩ := updateState_lock_fields u
  unfold LockConsistent at hu ⊢
  rw [e1, e2, e3, e4]
  exact hu

theorem setCurrentMeteor_fields (B : Body) (s : CamState) :
    ∃ cmi, setCurrentMeteor B s
      = { s with currentMeteorIndex := cmi, currentMeteor := some B } := by
  unfold setCurrentMeteor
  dsimp only
  by_cases hix : indexOfBody s.meteorsList B ≠ -1
  · exact ⟨indexOfBody s.meteorsList B, by rw [if_pos hix]⟩
  · exact ⟨s.currentMeteorIndex, by rw [if_neg hix]⟩

theorem lockConsistent_transBegin (s : CamState) (B : Body) (goal : ℝ)
    (kd : LockMode) (dur : ℝ) (hkd : kd ≠ LockMode.nolock)
    (hk : ∀ c ∈ s.transitions, c.kind ≠ LockMode.nolock) :
    LockConsistent (transitionToTarget B goal kd dur
      { s with lockedTarget := none, lockMode := LockMode.nolock }) := by
  unfold transitionToTarget LockConsistent
  refine ⟨by simp, fun _ => rfl, ?_⟩
  intro c hc
  rcases List.mem_cons.1 hc with hh | hmem
  · rw [hh]
    exact hkd
  · exact hk c hmem

theorem lockConsistent_lockOntoMeteor (s : CamState) (B : Body) (dur : ℝ)
    (hs : LockConsistent s) : LockConsistent (lockOntoMeteor B dur s) := by
  unfold lockOntoMeteor
  split
  · exact hs
  · exact lockConsistent_transBegin s B _ LockMode.meteor dur
      (fun h => LockMode.noConfusion h) hs.2.2

theorem lockConsistent_setCurrentMeteor (s : CamState) (B : Body)
    (hs : LockConsistent s) : LockConsistent (setCurrentMeteor B s) := by
  obtain ⟨cmi, he⟩ := setCurrentMeteor_fields B s
  rw [he]
  exact ⟨hs.1, hs.2.1, hs.2.2⟩

theorem lockConsistent_lockOntoMeteorByIndex (s : CamState) (i : ℤ) (dur : ℝ)
    (hs : LockConsistent s) : LockConsistent (lockOntoMeteorByIndex i dur s) := by
  unfold lockOntoMeteorByIndex
  split
  · exact hs
  · split
    · exact hs
    · apply lockConsistent_lockOntoMeteor
      apply lockConsistent_setCurrentMeteor
      exact ⟨hs.1, hs.2.1, hs.2.2⟩

theorem lockConsistent_commit (ctx : TransCtx) (u : CamState)
    (hkind : ctx.kind ≠ LockMode.nolock)
    (hk : ∀ c ∈ u.transitions, c.kind ≠ LockMode.nolock) :
    LockConsistent (commitTransition ctx
      { u with isTransitioning := false,
               transitions := u.transitions.filter (fun c => c.ctxId ≠ ctx.ctxId) }) := by
  unfold commitTransition
  obtain ⟨mn2, cd2, r2, he⟩ := umd_fields _
  rw [he]
  refine ⟨⟨fun hcon => Option.noConfusion hcon, fun hcon => absurd hcon hkind⟩,
          fun hcon => Bool.noConfusion hcon, ?_⟩
  intro c hc
  have hc2 : c ∈ u.transitions.filter (fun c => c.ctxId ≠ ctx.ctxId) := hc
  exact hk c (List.mem_filter.1 hc2).1

theorem lockConsistent_step (s t : CamState) (h : CamStep s t)
    (hs : LockConsistent s) : LockConsistent t := by
  obtain ⟨hiff, htr, hkinds⟩ := hs
  cases h with
  | mouseDown cx cy => exact ⟨hiff, htr, hkinds⟩
  | mouseUp => exact ⟨hiff, htr, hkinds⟩
  | mouseMove cx cy =>
    unfold onMouseMove
    split
    · exact lockConsistent_updateState _ ⟨hiff, htr, hkinds⟩
    · exact ⟨hiff, htr, hkinds⟩
  | wheel deltaY => exact lockConsistent_updateState _ ⟨hiff, htr, hkinds⟩
  | frame => exact lockConsistent_updateState _ ⟨hiff, htr, hkinds⟩
  | key k =>
    unfold onKeyDown
    split
    · exact ⟨hiff, htr, hkinds⟩
    · cases k with
      | keyR =>
        unfold resetCamera
        exact lockConsistent_updateState _ ⟨hiff, htr, hkinds⟩
      | keyG => exact ⟨hiff, htr, hkinds⟩
      | digit0 =>
        unfold lockOntoSunWithTransition
        cases hsi : s.sunInstance with
        | none => exact ⟨hiff, htr, hkinds⟩
        | some sun =>
          dsimp only
          split
          · exact ⟨hiff, htr, hkinds⟩
          · exact lockConsistent_transBegin s sun _ LockMode.sun _
              (fun hc => LockMode.noConfusion hc) hkinds
      | digit1 =>
        unfold lockOntoEarthWithTransition
        cases hei : s.earthInstance with
        | none => exact ⟨hiff, htr, hkinds⟩
        | some earth =>
          dsimp only
          split
          · exact ⟨hiff, htr, hkinds⟩
          · exact lockConsistent_transBegin s earth _ LockMode.earth _
              (fun hc => LockMode.noConfusion hc) hkinds
      | digit2 =>
        unfold lockOntoMeteorIfExists
        cases hcm : s.currentMeteor with
        | none => exact ⟨hiff, htr, hkinds⟩
        | some m =>
          dsimp only
          exact lockConsistent_lockOntoMeteor s m _ ⟨hiff, htr, hkinds⟩
      | keyA =>
        cases hml : s.meteorsList with
        | nil => exact ⟨hiff, htr, hkinds⟩
        | cons first rest =>
          dsimp only
          apply lockConsistent_lockOntoMeteor
          apply lockConsistent_setCurrentMeteor
          exact ⟨hiff, htr, hkinds⟩
      | escape =>
        unfold unlockTarget
        exact ⟨by simp, fun _ => rfl, hkinds⟩
      | arrowUp => exact lockConsistent_updateState _ ⟨hiff, htr, hkinds⟩
      | arrowDown => exact lockConsistent_updateState _ ⟨hiff, htr, hkinds⟩
      | arrowRight =>
        dsimp only
        split
        · exact lockConsistent_lockOntoMeteorByIndex s _ _ ⟨hiff, htr, hkinds⟩
        · exact ⟨hiff, htr, hkinds⟩
      | arrowLeft =>
        dsimp only
        split
        · exact lockConsistent_lockOntoMeteorByIndex s _ _ ⟨hiff, htr, hkinds⟩
        · exact ⟨hiff, htr, hkinds⟩
      | other => exact ⟨hiff, htr, hkinds⟩
  | animate ctx livePos elapsed _sq hctx =>
    unfold animateStep
    dsimp only
    split
    · exact lockConsistent_updateState _ ⟨hiff, htr, hkinds⟩
    · apply lockConsistent_commit
      · exact hkinds ctx hctx
      · intro c hc
        rw [(updateState_lock_fields _).2.2.2.1] at hc
        exact hkinds c hc

theorem lockConsistent_op (s t : CamState) (h : CamOp s t)
    (hs : LockConsistent s) : LockConsistent t := by
  cases h with
  | step h => exact lockConsistent_step s t h hs
  | setBodies sun earth => exact ⟨hs.1, hs.2.1, hs.2.2⟩
  | setMeteors l => exact ⟨hs.1, hs.2.1, hs.2.2⟩
  | setMeteor B => exact lockConsistent_setCurrentMeteor s B hs

theorem c10S2_eq : c10S2
    = { c10S1 with minDistance := 2, maxDistance := 20, autoRotate := false,
                   lockedTarget := none, lockMode := LockMode.nolock,
                   isTransitioning := true, transitions := [c10Ctx],
                   nextCtxId := 1 } := rfl

theorem c10Ctx_mem : c10Ctx ∈ c10S2.transitions := by
  rw [c10S2_eq]
  exact List.mem_cons_self _ _

theorem c10S3_fields :
    c10S3.lockedTarget = some c3Sun ∧ c10S3.lockMode = LockMode.sun ∧
    c10S3.isTransitioning = false := by
  unfold c10S3
  rw [c10S2_eq]
  unfold animateStep updateState commitTransition updateMinDistanceForTarget
    c10Ctx c3Sun
  dsimp only
  simp only [Bool.false_eq_true, if_false]
  rw [show min ((1500:ℝ)/1500) 1 = 1 by norm_num]
  rw [if_neg (by norm_num : ¬ (1:ℝ) < 0.5)]
  rw [if_neg (lt_irrefl (1:ℝ))]
  have hr : ∀ r : ℝ, r + (15 * 3 - r) * (1 - (-2 * 1 + 2) ^ 2 / 2) = 45 := by
    intro r
    ring
  rw [hr]
  rw [if_pos (show (0.1:ℝ) < |2 - 15 * 2.5| by
    rw [abs_of_nonpos (by norm_num)]; norm_num)]
  rw [if_neg (show ¬ ((45:ℝ) < 15 * 2.5) by norm_num)]
  dsimp only
  exact ⟨rfl, rfl, rfl⟩

/-- C10: in every controller state reachable from construction through the
public operations — the DOM input handlers, the lock commands, unlock,
per-frame updates, transition frames, and the host wiring calls
`setTargetObjects`/`setCurrentMeteor`/`setMeteorsList` that install the
lockable scene bodies — `lockedTarget` is `null` exactly when `lockMode`
is `'none'`; both are cleared for the whole duration of an in-flight
transition, so `getLockStatus` always reports `isLocked` consistent with
its `mode` field and reports unlocked while transitioning. -/
theorem lock_mode_consistency (cp tgt : Vec3) (mn mx : ℝ) (s : CamState)
    (hreach : Relation.ReflTransGen CamOp (initState cp tgt mn mx) s) :
    (s.lockedTarget = none ↔ s.lockMode = LockMode.nolock) ∧
    (s.isTransitioning = true → s.lockedTarget = none) ∧
    ((getLockStatus s).2.1 = false ↔ (getLockStatus s).1 = LockMode.nolock) ∧
    (s.isTransitioning = true → (getLockStatus s).2.1 = false) := by
  have hinit : LockConsistent (initState cp tgt mn mx) := by
    unfold initState
    apply lockConsistent_updateState
    exact ⟨by simp, fun _ => rfl, fun c hc => absurd hc (by simp)⟩
  have hcons : LockConsistent s := by
    induction hreach with
    | refl => exact hinit
    | @tail b c _ hstep ih => exact lockConsistent_op b c hstep ih
  obtain ⟨hiff, htr, _⟩ := hcons
  have hiso : (s.lockedTarget.isSome = false) ↔ s.lockedTarget = none := by
    cases s.lockedTarget <;> simp
  exact ⟨hiff, htr, hiso.trans hiff, fun h => hiso.2 (htr h)⟩

/-- Witness: from a freshly constructed controller, installing the scene
bodies, pressing `0` and completing the transition frame are real
operations.  Mid-transition (`c10S2`) the flag is genuinely set and
`getLockStatus` reports unlocked; after the commit (`c10S3`) the
controller is genuinely in sun mode, where the consistency iff forces a
non-null `lockedTarget`. -/
theorem lock_mode_consistency_witness :
    c10S2.isTransitioning = true ∧
    (getLockStatus c10S2).2.1 = false ∧
    c10S3.lockMode = LockMode.sun ∧
    c10S3.lockedTarget ≠ none := by
  have hit : c10S2.isTransitioning = true := by rw [c10S2_eq]
  have h2 := lock_mode_consistency ⟨0, 10, 0⟩ ⟨0, 0, 0⟩ 2 20 c10S2
    (Relation.ReflTransGen.tail
      (Relation.ReflTransGen.tail Relation.ReflTransGen.refl
        (CamOp.setBodies c3Sun c4Earth c10Init))
      (CamOp.step (CamStep.key Key.digit0 c10S1)))
  have h3 := lock_mode_consistency ⟨0, 10, 0⟩ ⟨0, 0, 0⟩ 2 20 c10S3
    (Relation.ReflTransGen.tail
      (Relation.ReflTransGen.tail
        (Relation.ReflTransGen.tail Relation.ReflTransGen.refl
          (CamOp.setBodies c3Sun c4Earth c10Init))
        (CamOp.step (CamStep.key Key.digit0 c10S1)))
      (CamOp.step (CamStep.animate c10Ctx ⟨0, 0, 0⟩ 1500 c10S2 c10Ctx_mem)))
  refine ⟨hit, h2.2.2.2 hit, c10S3_fields.2.1, ?_⟩
  intro hnone
  have hlm := h3.1.1 hnone
  rw [c10S3_fields.2.1] at hlm
  exact LockMode.noConfusion hlm

/-- C4 (amended): a transition frame at `elapsed ≥ duration` (progress 1)
commits the lock: `isTransitioning` is false, `lockMode` equals the
commanded kind, and the spherical radius equals the commanded `goalRadius`
EXACTLY — provided the goal lies within the distance bounds in force
(`minDistance ≤ goal ≤ maxDistance`) and at least at the committed body's
`radius * 2.5` floor; outside those bounds `update`'s clamp (or the
`onComplete` minimum-distance fix) overrides the goal (see the
counterexample). -/
theorem transition_completion (ctx : TransCtx) (livePos : Vec3) (elapsed : ℝ)
    (s : CamState) (hdur : 0 < ctx.duration) (hel : ctx.duration ≤ elapsed)
    (hlk : s.lockedTarget = none)
    (h1 : s.minDistance ≤ ctx.goal) (h2 : ctx.goal ≤ s.maxDistance)
    (h3 : ctx.body.radius * 2.5 ≤ ctx.goal) :
    (animateStep ctx livePos elapsed s).spherical.radius = ctx.goal ∧
    (animateStep ctx livePos elapsed s).isTransitioning = false ∧
    (animateStep ctx livePos elapsed s).lockMode = ctx.kind := by
  obtain ⟨cid, B, kd, gl, stT, sth, stp, str, dur⟩ := ctx
  obtain ⟨tg, mn, mx, cd, rs, zs, md, lx, ly, ⟨sr, sp, st⟩, ar, ars, lt, lm, it,
    ml, cmi, cm, si, ei, cp, tr, nci⟩ := s
  dsimp only at hdur hel hlk h1 h2 h3 ⊢
  subst hlk
  have hprog : min (elapsed / dur) 1 = 1 := min_eq_right ((one_le_div hdur).2 hel)
  unfold animateStep updateState commitTransition updateMinDistanceForTarget
  dsimp only
  rw [hprog]
  rw [if_neg (by norm_num : ¬ (1:ℝ) < 0.5)]
  rw [if_neg (lt_irrefl (1:ℝ))]
  rw [show str + (gl - str) * (1 - (-2 * 1 + 2) ^ 2 / 2) = gl by ring]
  split_ifs with hc1 hc2 hc3 hc4 hc5 hc6 <;> (try dsimp only) <;>
    first
      | exact ⟨by rw [min_eq_right h2, max_eq_right h1], rfl, rfl⟩
      | exact absurd (by assumption : gl < B.radius * 2.5) (not_lt.2 h3)

/-- Witness: a completed transition whose goal (100) lies inside the
bounds `[80, 500]` ends exactly at radius 100 in earth mode. -/
theorem transition_completion_witness :
    (animateStep ⟨0, c4Earth, LockMode.earth, 100, ⟨150, 0, 0⟩, 0, 1, 80, 1500⟩
        ⟨150, 0, 0⟩ 1500 c4Start).spherical.radius = 100 ∧
    (animateStep ⟨0, c4Earth, LockMode.earth, 100, ⟨150, 0, 0⟩, 0, 1, 80, 1500⟩
        ⟨150, 0, 0⟩ 1500 c4Start).lockMode = LockMode.earth :=
  ⟨(transition_completion _ _ _ _ (by norm_num) (by norm_num) rfl
      (by norm_num [c4Start]) (by norm_num [c4Start]) (by norm_num [c4Earth])).1,
   (transition_completion _ _ _ _ (by norm_num) (by norm_num) rfl
      (by norm_num [c4Start]) (by norm_num [c4Start]) (by norm_num [c4Earth])).2.2⟩

/-- C4 counterexample: completing the `ThreeDemo` earth lock (goal radius
`1 * 5`, duration 1500) from the scene's `minDistance = 80` commits the
mode and clears the transition flag, but the spherical radius ends at the
clamped value 80 — NOT equal to the commanded goal. -/
theorem transition_completion_counterexample :
    c4Start.isTransitioning = true ∧
    c4Ctx ∈ c4Start.transitions ∧
    c4Ctx.goal = 5 ∧
    c4End.isTransitioning = false ∧
    c4End.lockMode = LockMode.earth ∧
    c4End.spherical.radius = 80 ∧
    c4End.spherical.radius ≠ c4Ctx.goal := by
  have hrad : c4End.spherical.radius = 80 ∧
      c4End.isTransitioning = false ∧ c4End.lockMode = LockMode.earth := by
    unfold c4End c4Start c4Ctx c4Earth animateStep updateState commitTransition
      updateMinDistanceForTarget
    dsimp only
    simp only [Bool.false_eq_true, if_false]
    rw [show min ((1500:ℝ)/1500) 1 = 1 by norm_num]
    rw [if_neg (by norm_num : ¬ (1:ℝ) < 0.5)]
    rw [if_neg (lt_irrefl (1:ℝ))]
    rw [show (80:ℝ) + (1 * 5 - 80) * (1 - (-2 * 1 + 2) ^ 2 / 2) = 5 by norm_num]
    rw [if_pos (show (0.1:ℝ) < |80 - 1 * 2.5| by rw [abs_of_nonneg (by norm_num)]; norm_num)]
    rw [if_neg (show ¬ ((5:ℝ) < 1 * 2.5) by norm_num)]
    dsimp only
    refine ⟨?_, rfl, rfl⟩
    rw [min_eq_right (by norm_num : (5:ℝ) ≤ 500), max_eq_left (by norm_num : (5:ℝ) ≤ 80)]
  exact ⟨rfl, by simp [c4Start], by norm_num [c4Ctx], hrad.2.1, hrad.2.2, hrad.1,
    by rw [hrad.1]; norm_num [c4Ctx]⟩

theorem updateState_eq_of_sync (u : CamState) (hsync : LockSyncProp u) :
    (updateState u).minDistance = u.minDistance ∧
    (updateState u).currentDistance = u.currentDistance ∧
    (updateState u).spherical.radius
      = max u.minDistance (min u.maxDistance u.spherical.radius) ∧
    (updateState u).spherical.phi
      = max 0.01 (min (Real.pi - 0.01) u.spherical.phi) := by
  obtain ⟨tg, mn, mx, cd, rs, zs, md, lx, ly, ⟨sr, sp, st⟩, ar, ars, lt, lm, it,
    ml, cmi, cm, si, ei, cp, tr, nci⟩ := u
  unfold updateState updateMinDistanceForTarget
  cases lt with
  | none => cases ar <;> simp
  | some B =>
    cases it with
    | true => cases ar <;> simp
    | false =>
      have hno : ¬ (0.1 < |mn - B.radius * 2.5|) := not_lt.2 (hsync B rfl rfl)
      cases ar <;> dsimp only <;> rw [if_neg hno] <;> simp

theorem pi_sub_hundredth : (0.01 : ℝ) ≤ Real.pi - 0.01 := by
  have := Real.pi_gt_d6
  linarith

theorem CamInv_updateState (u : CamState)
    (hmm : u.minDistance ≤ u.maxDistance)
    (hsync : LockSyncProp u)
    (hscene : SceneBodiesOK u) :
    CamInv (updateState u) := by
  obtain ⟨e1, e2, e3, e4⟩ := updateState_eq_of_sync u hsync
  obtain ⟨f1, f2, f3, f4, f5, f6, f7, f8, f9, f10, f11⟩ := updateState_lock_fields u
  refine ⟨?_, ⟨?_, ?_, ?_, ?_⟩, ?_, ?_⟩
  · rw [e1, f10]
    exact hmm
  · rw [e3, e1]
    exact le_max_left _ _
  · rw [e3, f10]
    exact max_le hmm (min_le_left _ _)
  · rw [e4]
    exact le_max_left _ _
  · rw [e4]
    exact max_le pi_sub_hundredth (min_le_left _ _)
  · intro B hB htr2
    rw [f1] at hB
    rw [f3] at htr2
    rw [e1]
    exact hsync B hB htr2
  · unfold SceneBodiesOK at hscene ⊢
    simp only [f1, f4, f5, f7, f8, f9, f10]
    exact hscene

theorem CamInv_commitAfterUpdate (ctx : TransCtx) (x : CamState)
    (hmm : x.minDistance ≤ x.maxDistance)
    (hsync : LockSyncProp x)
    (hscene : SceneBodiesOK x)
    (hcd0 : x.spherical.radius = x.currentDistance)
    (hctxB : ctx.body.radius * 2.5 ≤ x.maxDistance) :
    CamInv (commitTransition ctx
      { (updateState x) with
          isTransitioning := false,
          transitions := (updateState x).transitions.filter
            (fun c => c.ctxId ≠ ctx.ctxId) }) := by
  obtain ⟨hs1, hs2, hs3, hs4, hs5, hs6⟩ := hscene
  obtain ⟨e1, e2, e3, e4⟩ := updateState_eq_of_sync x hsync
  obtain ⟨f1, f2, f3, f4, f5, f6, f7, f8, f9, f10, f11⟩ := updateState_lock_fields x
  unfold commitTransition updateMinDistanceForTarget
  dsimp only
  rw [e1, e2]
  split_ifs with hA hB
  · refine ⟨?_, ⟨?_, ?_, ?_, ?_⟩, ?_, ?_⟩
    · dsimp only
      rw [f10]
      exact hctxB
    · dsimp only
      exact le_refl _
    · dsimp only
      rw [f10]
      exact hctxB
    · dsimp only
      rw [e4]
      exact le_max_left _ _
    · dsimp only
      rw [e4]
      exact max_le pi_sub_hundredth (min_le_left _ _)
    · intro C hC htr2
      have hC2 : some ctx.body = some C := hC
      obtain rfl := Option.some.inj hC2
      dsimp only
      rw [sub_self, abs_zero]
      norm_num
    · refine ⟨?_, ?_, ?_, ?_, ?_, ?_⟩
      · intro B hB2
        have hB3 : (updateState x).sunInstance = some B := hB2
        rw [f8] at hB3
        dsimp only
        rw [f10]
        exact hs1 B hB3
      · intro B hB2
        have hB3 : (updateState x).earthInstance = some B := hB2
        rw [f9] at hB3
        dsimp only
        rw [f10]
        exact hs2 B hB3
      · intro B hB2
        have hB3 : (updateState x).currentMeteor = some B := hB2
        rw [f7] at hB3
        dsimp only
        rw [f10]
        exact hs3 B hB3
      · intro B hB2
        have hB3 : B ∈ (updateState x).meteorsList := hB2
        rw [f5] at hB3
        dsimp only
        rw [f10]
        exact hs4 B hB3
      · intro c hc
        have hc2 : c ∈ ((updateState x).transitions.filter
            (fun c => c.ctxId ≠ ctx.ctxId)) := hc
        rw [f4] at hc2
        dsimp only
        rw [f10]
        exact hs5 c (List.mem_filter.1 hc2).1
      · intro C hC
        have hC2 : some ctx.body = some C := hC
        obtain rfl := Option.some.inj hC2
        dsimp only
        rw [f10]
        exact hctxB
  · refine ⟨?_, ⟨?_, ?_, ?_, ?_⟩, ?_, ?_⟩
    · dsimp only
      rw [f10]
      exact hctxB
    · dsimp only
      rw [e3, hcd0]
      exact le_trans (le_min hctxB (not_lt.1 hB)) (le_max_right _ _)
    · dsimp only
      rw [e3, f10]
      exact max_le hmm (min_le_left _ _)
    · dsimp only
      rw [e4]
      exact le_max_left _ _
    · dsimp only
      rw [e4]
      exact max_le pi_sub_hundredth (min_le_left _ _)
    · intro C hC htr2
      have hC2 : some ctx.body = some C := hC
      obtain rfl := Option.some.inj hC2
      dsimp only
      rw [sub_self, abs_zero]
      norm_num
    · refine ⟨?_, ?_, ?_, ?_, ?_, ?_⟩
      · intro B hB2
        have hB3 : (updateState x).sunInstance = some B := hB2
        rw [f8] at hB3
        dsimp only
        rw [f10]
        exact hs1 B hB3
      · intro B hB2
        have hB3 : (updateState x).earthInstance = some B := hB2
        rw [f9] at hB3
        dsimp only
        rw [f10]
        exact hs2 B hB3
      · intro B hB2
        have hB3 : (updateState x).currentMeteor = some B := hB2
        rw [f7] at hB3
        dsimp only
        rw [f10]
        exact hs3 B hB3
      · intro B hB2
        have hB3 : B ∈ (updateState x).meteorsList := hB2
        rw [f5] at hB3
        dsimp only
        rw [f10]
        exact hs4 B hB3
      · intro c hc
        have hc2 : c ∈ ((updateState x).transitions.filter
            (fun c => c.ctxId ≠ ctx.ctxId)) := hc
        rw [f4] at hc2
        dsimp only
        rw [f10]
        exact hs5 c (List.mem_filter.1 hc2).1
      · intro C hC
        have hC2 : some ctx.body = some C := hC
        obtain rfl := Option.some.inj hC2
        dsimp only
        rw [f10]
        exact hctxB
  · refine ⟨?_, ⟨?_, ?_, ?_, ?_⟩, ?_, ?_⟩
    · dsimp only
      rw [f10]
      exact hmm
    · dsimp only
      rw [e3]
      exact le_max_left _ _
    · dsimp only
      rw [e3, f10]
      exact max_le hmm (min_le_left _ _)
    · dsimp only
      rw [e4]
      exact le_max_left _ _
    · dsimp only
      rw [e4]
      exact max_le pi_sub_hundredth (min_le_left _ _)
    · intro C hC htr2
      have hC2 : some ctx.body = some C := hC
      obtain rfl := Option.some.inj hC2
      dsimp only
      exact not_lt.1 hA
    · refine ⟨?_, ?_, ?_, ?_, ?_, ?_⟩
      · intro B hB2
        have hB3 : (updateState x).sunInstance = some B := hB2
        rw [f8] at hB3
        dsimp only
        rw [f10]
        exact hs1 B hB3
      · intro B hB2
        have hB3 : (updateState x).earthInstance = some B := hB2
        rw [f9] at hB3
        dsimp only
        rw [f10]
        exact hs2 B hB3
      · intro B hB2
        have hB3 : (updateState x).currentMeteor = some B := hB2
        rw [f7] at hB3
        dsimp only
        rw [f10]
        exact hs3 B hB3
      · intro B hB2
        have hB3 : B ∈ (updateState x).meteorsList := hB2
        rw [f5] at hB3
        dsimp only
        rw [f10]
        exact hs4 B hB3
      · intro c hc
        have hc2 : c ∈ ((updateState x).transitions.filter
            (fun c => c.ctxId ≠ ctx.ctxId)) := hc
        rw [f4] at hc2
        dsimp only
        rw [f10]
        exact hs5 c (List.mem_filter.1 hc2).1
      · intro C hC
        have hC2 : some ctx.body = some C := hC
        obtain rfl := Option.some.inj hC2
        dsimp only
        rw [f10]
        exact hctxB

theorem CamInv_transBegin (s : CamState) (B : Body) (gl : ℝ) (kd : LockMode)
    (dur : ℝ) (hinv : CamInv s) (hB : B.radius * 2.5 ≤ s.maxDistance) :
    CamInv (transitionToTarget B gl kd dur
      { s with lockedTarget := none, lockMode := LockMode.nolock }) := by
  obtain ⟨hmm, hb, hsync, ⟨h1, h2, h3, h4, h5, h6⟩⟩ := hinv
  unfold transitionToTarget
  refine ⟨hmm, hb, ?_, ?_⟩
  · intro C hC htr2
    exact Option.noConfusion hC
  · refine ⟨?_, ?_, ?_, ?_, ?_, ?_⟩
    · intro C hC
      exact h1 C hC
    · intro C hC
      exact h2 C hC
    · intro C hC
      exact h3 C hC
    · intro C hC
      exact h4 C hC
    · intro c hc
      have hc2 : c ∈ _ :: s.transitions := hc
      rcases List.mem_cons.1 hc2 with hh | hmem
      · rw [hh]
        exact hB
      · exact h5 c hmem
    · intro C hC
      exact Option.noConfusion hC

theorem CamInv_lockOntoMeteor (s : CamState) (B : Body) (dur : ℝ)
    (hinv : CamInv s) (hB : B.radius * 2.5 ≤ s.maxDistance) :
    CamInv (lockOntoMeteor B dur s) := by
  unfold lockOntoMeteor
  split
  · exact hinv
  · exact CamInv_transBegin s B _ LockMode.meteor dur hinv hB

theorem CamInv_setCurrentMeteor (s : CamState) (B : Body)
    (hinv : CamInv s) (hB : B.radius * 2.5 ≤ s.maxDistance) :
    CamInv (setCurrentMeteor B s) := by
  obtain ⟨cmi2, he⟩ := setCurrentMeteor_fields B s
  rw [he]
  obtain ⟨hmm, hb, hsync, ⟨h1, h2, h3, h4, h5, h6⟩⟩ := hinv
  refine ⟨hmm, hb, fun C hC htr2 => hsync C hC htr2, ?_⟩
  refine ⟨fun C hC => h1 C hC, fun C hC => h2 C hC, ?_, fun C hC => h4 C hC,
    fun c hc => h5 c hc, fun C hC => h6 C hC⟩
  intro C hC
  have hC2 : some B = some C := hC
  rw [← Option.some.inj hC2]
  exact hB

theorem CamInv_lockOntoMeteorByIndex (s : CamState) (i : ℤ) (dur : ℝ)
    (hinv : CamInv s) : CamInv (lockOntoMeteorByIndex i dur s) := by
  unfold lockOntoMeteorByIndex
  split_ifs with hg1 hg2
  · exact hinv
  · exact hinv
  · dsimp only
    have hlen : i.toNat < s.meteorsList.length := by omega
    have hmem : s.meteorsList.getD i.toNat defBody ∈ s.meteorsList := by
      rw [List.getD_eq_getElem s.meteorsList defBody hlen]
      exact List.getElem_mem hlen
    have hB : (s.meteorsList.getD i.toNat defBody).radius * 2.5 ≤ s.maxDistance :=
      hinv.2.2.2.2.2.2.1 (s.meteorsList.getD i.toNat defBody) hmem
    obtain ⟨cmi2, he⟩ := setCurrentMeteor_fields (s.meteorsList.getD i.toNat defBody)
      { s with currentMeteorIndex := i }
    apply CamInv_lockOntoMeteor
    · apply CamInv_setCurrentMeteor
      · exact hinv
      · exact hB
    · rw [he]
      exact hB

theorem CamInv_step (s t : CamState) (h : CamStep s t) (hinv : CamInv s) :
    CamInv t := by
  obtain ⟨hmm, hb, hsync, hscene⟩ := hinv
  cases h with
  | mouseDown cx cy => exact ⟨hmm, hb, hsync, hscene⟩
  | mouseUp => exact ⟨hmm, hb, hsync, hscene⟩
  | mouseMove cx cy =>
    unfold onMouseMove
    split
    · exact CamInv_updateState _ hmm (fun B hB htr2 => hsync B hB htr2) hscene
    · exact ⟨hmm, hb, hsync, hscene⟩
  | wheel deltaY =>
    exact CamInv_updateState _ (by exact hmm)
      (fun B hB htr2 => hsync B hB htr2) hscene
  | frame => exact CamInv_updateState _ hmm hsync hscene
  | key k =>
    unfold onKeyDown
    split
    · exact ⟨hmm, hb, hsync, hscene⟩
    · cases k with
      | keyR =>
        unfold resetCamera
        exact CamInv_updateState _ hmm (fun B hB htr2 => hsync B hB htr2) hscene
      | keyG => exact ⟨hmm, hb, hsync, hscene⟩
      | digit0 =>
        unfold lockOntoSunWithTransition
        dsimp only
        split
        · exact ⟨hmm, hb, hsync, hscene⟩
        · rename_i sun hsi
          split
          · exact ⟨hmm, hb, hsync, hscene⟩
          · exact CamInv_transBegin s sun _ LockMode.sun _
              ⟨hmm, hb, hsync, hscene⟩ (hscene.1 sun hsi)
      | digit1 =>
        unfold lockOntoEarthWithTransition
        dsimp only
        split
        · exact ⟨hmm, hb, hsync, hscene⟩
        · rename_i earth hei
          split
          · exact ⟨hmm, hb, hsync, hscene⟩
          · exact CamInv_transBegin s earth _ LockMode.earth _
              ⟨hmm, hb, hsync, hscene⟩ (hscene.2.1 earth hei)
      | digit2 =>
        unfold lockOntoMeteorIfExists
        dsimp only
        split
        · rename_i m hcm
          exact CamInv_lockOntoMeteor s m _ ⟨hmm, hb, hsync, hscene⟩
            (hscene.2.2.1 m hcm)
        · exact ⟨hmm, hb, hsync, hscene⟩
      | keyA =>
        dsimp only
        split
        · exact ⟨hmm, hb, hsync, hscene⟩
        · rename_i first rest hml
          have hBm : first.radius * 2.5 ≤ s.maxDistance :=
            hscene.2.2.2.1 first (by rw [hml]; exact List.mem_cons_self _ _)
          obtain ⟨cmi2, he⟩ := setCurrentMeteor_fields first s
          apply CamInv_lockOntoMeteor
          · apply CamInv_setCurrentMeteor
            · exact ⟨hmm, hb, hsync, hscene⟩
            · exact hBm
          · rw [he]
            exact hBm
      | escape =>
        unfold unlockTarget
        refine ⟨hmm, hb, fun C hC htr2 => Option.noConfusion hC, ?_⟩
        obtain ⟨h1, h2, h3, h4, h5, h6⟩ := hscene
        exact ⟨fun C hC => h1 C hC, fun C hC => h2 C hC, fun C hC => h3 C hC,
          fun C hC => h4 C hC, fun c hc => h5 c hc,
          fun C hC => Option.noConfusion hC⟩
      | arrowUp =>
        exact CamInv_updateState _ (by exact hmm)
          (fun B hB htr2 => hsync B hB htr2) hscene
      | arrowDown =>
        exact CamInv_updateState _ (by exact hmm)
          (fun B hB htr2 => hsync B hB htr2) hscene
      | arrowRight =>
        dsimp only
        split
        · exact CamInv_lockOntoMeteorByIndex s _ _ ⟨hmm, hb, hsync, hscene⟩
        · exact ⟨hmm, hb, hsync, hscene⟩
      | arrowLeft =>
        dsimp only
        split
        · exact CamInv_lockOntoMeteorByIndex s _ _ ⟨hmm, hb, hsync, hscene⟩
        · exact ⟨hmm, hb, hsync, hscene⟩
      | other => exact ⟨hmm, hb, hsync, hscene⟩
  | animate ctx livePos elapsed _sq hctx =>
    unfold animateStep
    dsimp only
    split
    · exact CamInv_updateState _ (by exact hmm)
        (fun B hB htr2 => hsync B hB htr2) hscene
    · apply CamInv_commitAfterUpdate
      · exact hmm
      · exact fun B hB htr2 => hsync B hB htr2
      · exact hscene
      · rfl
      · exact hscene.2.2.2.2.1 ctx hctx

/-- C3 (amended): from any controller state with ordered zoom limits whose
scene bodies and in-flight transitions all fit the zoom range
(`radius * 2.5 ≤ maxDistance`, the `CamInv` invariant), every sequence of
controller operations — mouse drag, wheel zoom, key commands including the
locks, per-frame updates and transition frames — keeps
`minDistance ≤ spherical.radius ≤ maxDistance` and the CLOSED bounds
`0.01 ≤ phi ≤ π - 0.01` (the clamp attains its endpoints, so the spec's
strict inequalities must be weakened; and without the scene-fit hypothesis
a lock commit can push `minDistance` above `maxDistance`, see the
counterexample). -/
theorem camera_bounds_invariant (s0 s : CamState) (hinv : CamInv s0)
    (hreach : CamReachable s0 s) :
    s.minDistance ≤ s.spherical.radius ∧ s.spherical.radius ≤ s.maxDistance ∧
    0.01 ≤ s.spherical.phi ∧ s.spherical.phi ≤ Real.pi - 0.01 := by
  have hs : CamInv s := by
    induction hreach with
    | refl => exact hinv
    | @tail b c _ hstep ih => exact CamInv_step b c hstep ih
  exact hs.2.1

/-- Witness: the bounds at a concrete free camera of the `ThreeDemo`
scene, whose zoom limits are `[80, 500]`. -/
theorem camera_bounds_invariant_witness :
    c3W.minDistance ≤ c3W.spherical.radius ∧
    c3W.spherical.radius ≤ c3W.maxDistance ∧
    0.01 ≤ c3W.spherical.phi ∧ c3W.spherical.phi ≤ Real.pi - 0.01 :=
  camera_bounds_invariant c3W c3W
    ⟨by norm_num [c3W],
     ⟨by norm_num [c3W], by norm_num [c3W], by norm_num [c3W],
      by simp only [c3W]; have h := Real.pi_gt_d6; linarith⟩,
     fun B hB _ => by simp [c3W] at hB,
     ⟨fun B hB => by simp [c3W] at hB, fun B hB => by simp [c3W] at hB,
      fun B hB => by simp [c3W] at hB, fun B hB => by simp [c3W] at hB,
      fun c hc => by simp [c3W] at hc, fun B hB => by simp [c3W] at hB⟩⟩
    Relation.ReflTransGen.refl

/-- C3 counterexample: in the intro-slide scene of `src/unnamed/part_000`
(`setZoomLimits(2, 20)`, sun of radius 15), a free camera satisfying the
claimed bounds presses `0` (sun lock); when the transition completes, the
`onComplete` callback sets `minDistance := 15 * 2.5 = 37.5`, which exceeds
`maxDistance = 20`, so `minDistance ≤ spherical.radius` is violated: the
claimed invariant does not survive this lock operation. -/
theorem camera_bounds_counterexample :
    CamBoundsStrict c3Start ∧
    CamStep c3Start c3Mid ∧
    CamStep c3Mid c3End ∧
    c3End.minDistance = 37.5 ∧
    c3End.spherical.radius = 20 ∧
    ¬ CamBoundsStrict c3End := by
  have hMid : c3Mid = { c3Start with isTransitioning := true,
                                     transitions := [c3Ctx],
                                     nextCtxId := 1 } := rfl
  have hval : c3End.minDistance = 15 * 2.5 ∧ c3End.spherical.radius = 20 := by
    unfold c3End
    rw [hMid]
    unfold animateStep updateState commitTransition updateMinDistanceForTarget
      c3Ctx
    dsimp only [c3Start, c3Sun]
    simp only [Bool.false_eq_true, if_false]
    rw [show min ((1500:ℝ)/1500) 1 = 1 by norm_num]
    rw [if_neg (by norm_num : ¬ (1:ℝ) < 0.5)]
    rw [if_neg (lt_irrefl (1:ℝ))]
    rw [show (10:ℝ) + (15 * 3 - 10) * (1 - (-2 * 1 + 2) ^ 2 / 2) = 45 by norm_num]
    rw [if_pos (show (0.1:ℝ) < |2 - 15 * 2.5| by
      rw [abs_of_nonpos (by norm_num)]; norm_num)]
    rw [if_neg (show ¬ ((45:ℝ) < 15 * 2.5) by norm_num)]
    dsimp only
    refine ⟨rfl, ?_⟩
    rw [min_eq_left (by norm_num : (20:ℝ) ≤ 45),
        max_eq_right (by norm_num : (2:ℝ) ≤ 20)]
  refine ⟨?_, ?_, ?_, by rw [hval.1]; norm_num, hval.2, ?_⟩
  · refine ⟨by norm_num [c3Start], by norm_num [c3Start], ?_, ?_⟩
    · simp only [c3Start]
      have h := Real.pi_gt_d6
      linarith
    · simp only [c3Start]
      have h := Real.pi_gt_d6
      linarith
  · exact CamStep.key Key.digit0 c3Start
  · refine CamStep.animate c3Ctx ⟨0, 0, 0⟩ 1500 c3Mid ?_
    rw [hMid]
    exact List.mem_cons_self _ _
  · intro hcb
    have h1 := hcb.1
    rw [hval.1, hval.2] at h1
    norm_num at h1
